import Mathlib

/-!
# The GTK4 / WebKitGTK window shell of `examples/menu-linux/webview.c`

The C file is a sequence of toolkit calls.  The embedding keeps every call:
the toolkit objects live in a heap of cells addressed by `Ptr`, a C pointer is
an `Option Ptr` (`none` is `NULL`), and each C function becomes a function
that threads the `World` through the same calls in the same order.

Toolkit primitives (`gtk_*`, `g_*`, `webkit_*`) are external to the
repository; each one is modelled by its documented effect on the attributes
the program touches.  A primitive applied to `NULL` or to an object of the
wrong class does nothing, as the toolkit's `g_return_if_fail` guards do.
Reference counts are not modelled.
-/

namespace Velo

set_option linter.constructorNameAsVariable false

/-! ## Data model -/

/-- Address of a live heap cell. A nullable C pointer is an `Option Ptr`. -/
abbrev Ptr := Nat

/-- The C struct `WebViewWindow` of `webview.h`: four pointers. -/
structure WebViewWindow where
  window : Option Ptr
  webview : Option Ptr
  menubar : Option Ptr
  popup_menu : Option Ptr
deriving DecidableEq, Repr

/-- `GtkOrientation`. -/
inductive GtkOrientation where
  | HORIZONTAL
  | VERTICAL
deriving DecidableEq, Repr

/-- Attributes of a `GtkWindow` that the program sets. -/
structure GtkWindow where
  title : Option String
  default_width : Int
  default_height : Int
  child : Option Ptr
  titlebar : Option Ptr
deriving DecidableEq, Repr

/-- Attributes of a `GtkBox`. -/
structure GtkBox where
  orientation : GtkOrientation
  spacing : Int
  children : List Ptr
deriving DecidableEq, Repr

/-- Attributes of a `GtkHeaderBar`: the flag and the widgets packed at its end. -/
structure GtkHeaderBar where
  show_title_buttons : Bool
  end_widgets : List Ptr
deriving DecidableEq, Repr

/-- Attributes of a `GtkMenuButton`. -/
structure GtkMenuButton where
  child : Option Ptr
  menu_model : Option Ptr
deriving DecidableEq, Repr

/-- The class-specific part of a widget. -/
inductive WidgetKind where
  | window (w : GtkWindow)
  | box (b : GtkBox)
  | header_bar (h : GtkHeaderBar)
  | menu_button (m : GtkMenuButton)
  | image (icon_name : String)
  | scrolled_window (child : Option Ptr)
  | web_view (uri : Option String)
deriving DecidableEq, Repr

/-- A `GtkWidget`: the attributes common to all widgets and the class part. -/
structure GtkWidget where
  visible : Bool
  vexpand : Bool
  kind : WidgetKind
deriving DecidableEq, Repr

/-- One item of a `GMenu`: its `label` and `action` attributes and its
`submenu` link. -/
structure GMenuItem where
  label : Option String
  action : Option String
  submenu : Option Ptr
deriving DecidableEq, Repr

/-- A `GSimpleAction`, identified by its name. -/
structure GSimpleAction where
  name : String
  parameter_type : Option String
deriving DecidableEq, Repr

/-- A `WebKitContextMenuItem`. `stock` stands for the engine's built-in
entries, which the program never creates itself. -/
inductive WebKitContextMenuItem where
  | separator
  | stock (action : Nat)
  | from_gaction (action : GSimpleAction) (label : String) (target : Option String)
deriving DecidableEq, Repr

/-- A heap cell. -/
inductive Cell where
  | shell (wv : WebViewWindow)
  | widget (w : GtkWidget)
  | menu (items : List GMenuItem)
  | context_menu (items : List WebKitContextMenuItem)
deriving DecidableEq, Repr

/-- The callbacks defined in `webview.c`. -/
inductive Callback where
  | on_activate_exit
  | on_window_destroy
  | on_context_menu
deriving DecidableEq, Repr

/-- One `g_signal_connect` registration. -/
structure SignalConnection where
  object : Ptr
  detailed_signal : String
  c_handler : Callback
  data : Option Ptr
deriving DecidableEq, Repr

/-- The program state: the heap, the signal registrations, what was written
to `stderr`, and whether `malloc` is out of memory. -/
structure World where
  heap : List Cell
  connections : List SignalConnection
  stderr : List String
  oom : Bool
deriving DecidableEq, Repr

/-! ## Heap access -/

/-- The cell at an address. -/
def World.cell (s : World) (p : Ptr) : Option Cell := s.heap[p]?

/-- Allocate a fresh cell at the end of the heap. -/
def World.alloc (s : World) (c : Cell) : Ptr × World :=
  (s.heap.length, { s with heap := s.heap ++ [c] })

/-- Overwrite the cell at an address. -/
def World.store (s : World) (p : Ptr) (c : Cell) : World :=
  { s with heap := s.heap.set p c }

/-- The widget a pointer designates, if it designates one. -/
def World.widget (s : World) (p : Option Ptr) : Option GtkWidget :=
  match p with
  | none => none
  | some a =>
    match s.cell a with
    | some (Cell.widget w) => some w
    | _ => none

/-- The items of the `GMenu` a pointer designates, if it designates one. -/
def World.menu (s : World) (p : Option Ptr) : Option (List GMenuItem) :=
  match p with
  | none => none
  | some a =>
    match s.cell a with
    | some (Cell.menu items) => some items
    | _ => none

/-- The struct a `WebViewWindow *` designates, if it designates one. -/
def World.shell (s : World) (p : Option Ptr) : Option WebViewWindow :=
  match p with
  | none => none
  | some a =>
    match s.cell a with
    | some (Cell.shell wv) => some wv
    | _ => none

/-- Apply `f` to the widget at `p`; nothing happens when `p` is `NULL`, is not
a widget, or `f` rejects the widget's class. -/
def World.update_widget (s : World) (p : Option Ptr) (f : GtkWidget → Option GtkWidget) : World :=
  match p with
  | none => s
  | some a =>
    match s.cell a with
    | some (Cell.widget w) =>
      match f w with
      | some w1 => s.store a (Cell.widget w1)
      | none => s
    | _ => s

/-- Apply `f` to the struct at `wv` (a field assignment `wv->field = value`). -/
def World.update_shell (s : World) (wv : Option Ptr) (f : WebViewWindow → WebViewWindow) : World :=
  match wv with
  | none => s
  | some a =>
    match s.cell a with
    | some (Cell.shell sh) => s.store a (Cell.shell (f sh))
    | _ => s

/-- Read `wv->window`. -/
def wv_window (s : World) (wv : Option Ptr) : Option Ptr := (s.shell wv).bind (·.window)
/-- Read `wv->webview`. -/
def wv_webview (s : World) (wv : Option Ptr) : Option Ptr := (s.shell wv).bind (·.webview)
/-- Read `wv->menubar`. -/
def wv_menubar (s : World) (wv : Option Ptr) : Option Ptr := (s.shell wv).bind (·.menubar)
/-- Read `wv->popup_menu`. -/
def wv_popup_menu (s : World) (wv : Option Ptr) : Option Ptr := (s.shell wv).bind (·.popup_menu)

/-! ## Toolkit primitives

GTK, GLib and WebKitGTK are libraries the program links against, not part of
the repository. Each primitive below states the documented effect of the
library call on the attributes kept in the cells. -/

/-- `malloc(sizeof(WebViewWindow))`: `NULL` when out of memory, else a fresh
struct. Its fields start as `NULL` here; the program assigns each field before
reading it. -/
def malloc_WebViewWindow (s : World) : Option Ptr × World :=
  if s.oom then (none, s)
  else
    let (p, s) := s.alloc (Cell.shell ⟨none, none, none, none⟩)
    (some p, s)

/-- `fprintf(stderr, msg)`. -/
def fprintf_stderr (s : World) (msg : String) : World :=
  { s with stderr := s.stderr ++ [msg] }

/-- `gtk_window_new()`: a hidden, untitled, empty top-level window. -/
def gtk_window_new (s : World) : Ptr × World :=
  s.alloc (Cell.widget ⟨false, false, WidgetKind.window ⟨none, 0, 0, none, none⟩⟩)

/-- `gtk_window_set_title(window, title)`. -/
def gtk_window_set_title (s : World) (window : Option Ptr) (title : String) : World :=
  s.update_widget window fun w =>
    match w.kind with
    | WidgetKind.window win => some { w with kind := WidgetKind.window { win with title := some title } }
    | _ => none

/-- `gtk_window_set_default_size(window, width, height)`: the toolkit rejects
a width or height below `-1`. -/
def gtk_window_set_default_size (s : World) (window : Option Ptr) (width height : Int) : World :=
  if width < -1 ∨ height < -1 then s
  else
    s.update_widget window fun w =>
      match w.kind with
      | WidgetKind.window win =>
        some { w with kind := WidgetKind.window { win with default_width := width, default_height := height } }
      | _ => none

/-- `gtk_window_set_child(window, child)`. -/
def gtk_window_set_child (s : World) (window : Option Ptr) (child : Option Ptr) : World :=
  s.update_widget window fun w =>
    match w.kind with
    | WidgetKind.window win => some { w with kind := WidgetKind.window { win with child := child } }
    | _ => none

/-- `gtk_window_set_titlebar(window, titlebar)`. -/
def gtk_window_set_titlebar (s : World) (window : Option Ptr) (titlebar : Option Ptr) : World :=
  s.update_widget window fun w =>
    match w.kind with
    | WidgetKind.window win => some { w with kind := WidgetKind.window { win with titlebar := titlebar } }
    | _ => none

/-- `g_signal_connect(object, detailed_signal, c_handler, data)`: records the
registration when `object` is a live toolkit object. -/
def g_signal_connect (s : World) (object : Option Ptr) (detailed_signal : String)
    (c_handler : Callback) (data : Option Ptr) : World :=
  match object with
  | none => s
  | some a =>
    match s.cell a with
    | some (Cell.widget _) | some (Cell.menu _) | some (Cell.context_menu _) =>
      { s with connections := s.connections ++ [⟨a, detailed_signal, c_handler, data⟩] }
    | _ => s

/-- `gtk_box_new(orientation, spacing)`. -/
def gtk_box_new (s : World) (orientation : GtkOrientation) (spacing : Int) : Ptr × World :=
  s.alloc (Cell.widget ⟨true, false, WidgetKind.box ⟨orientation, spacing, []⟩⟩)

/-- `gtk_box_append(box, child)`. -/
def gtk_box_append (s : World) (box : Option Ptr) (child : Ptr) : World :=
  s.update_widget box fun w =>
    match w.kind with
    | WidgetKind.box b => some { w with kind := WidgetKind.box { b with children := b.children ++ [child] } }
    | _ => none

/-- `gtk_header_bar_new()`. -/
def gtk_header_bar_new (s : World) : Ptr × World :=
  s.alloc (Cell.widget ⟨true, false, WidgetKind.header_bar ⟨true, []⟩⟩)

/-- `gtk_header_bar_set_show_title_buttons(bar, setting)`. -/
def gtk_header_bar_set_show_title_buttons (s : World) (bar : Option Ptr) (setting : Bool) : World :=
  s.update_widget bar fun w =>
    match w.kind with
    | WidgetKind.header_bar h =>
      some { w with kind := WidgetKind.header_bar { h with show_title_buttons := setting } }
    | _ => none

/-- `gtk_header_bar_pack_end(bar, child)`. -/
def gtk_header_bar_pack_end (s : World) (bar : Option Ptr) (child : Ptr) : World :=
  s.update_widget bar fun w =>
    match w.kind with
    | WidgetKind.header_bar h =>
      some { w with kind := WidgetKind.header_bar { h with end_widgets := h.end_widgets ++ [child] } }
    | _ => none

/-- `g_menu_new()`: an empty menu model. -/
def g_menu_new (s : World) : Ptr × World := s.alloc (Cell.menu [])

/-- Append one item to the `GMenu` at `menu`. -/
def g_menu_append_item (s : World) (menu : Option Ptr) (item : GMenuItem) : World :=
  match menu with
  | none => s
  | some a =>
    match s.cell a with
    | some (Cell.menu items) => s.store a (Cell.menu (items ++ [item]))
    | _ => s

/-- `g_menu_append(menu, label, detailed_action)`: a new last item with these
two attributes. The detailed actions the program passes carry no target, so
the `action` attribute is the string itself. -/
def g_menu_append (s : World) (menu : Option Ptr) (label detailed_action : Option String) : World :=
  g_menu_append_item s menu ⟨label, detailed_action, none⟩

/-- `g_menu_append_submenu(menu, label, submenu)`: a new last item linking to
`submenu`. -/
def g_menu_append_submenu (s : World) (menu : Option Ptr) (label : Option String)
    (submenu : Option Ptr) : World :=
  g_menu_append_item s menu ⟨label, none, submenu⟩

/-- `gtk_menu_button_new()`. -/
def gtk_menu_button_new (s : World) : Ptr × World :=
  s.alloc (Cell.widget ⟨true, false, WidgetKind.menu_button ⟨none, none⟩⟩)

/-- `gtk_image_new_from_icon_name(icon_name)`. -/
def gtk_image_new_from_icon_name (s : World) (icon_name : String) : Ptr × World :=
  s.alloc (Cell.widget ⟨true, false, WidgetKind.image icon_name⟩)

/-- `gtk_menu_button_set_child(button, child)`. -/
def gtk_menu_button_set_child (s : World) (button : Option Ptr) (child : Option Ptr) : World :=
  s.update_widget button fun w =>
    match w.kind with
    | WidgetKind.menu_button m => some { w with kind := WidgetKind.menu_button { m with child := child } }
    | _ => none

/-- `gtk_menu_button_set_menu_model(button, menu_model)`. -/
def gtk_menu_button_set_menu_model (s : World) (button : Option Ptr) (menu_model : Option Ptr) : World :=
  s.update_widget button fun w =>
    match w.kind with
    | WidgetKind.menu_button m =>
      some { w with kind := WidgetKind.menu_button { m with menu_model := menu_model } }
    | _ => none

/-- `gtk_scrolled_window_new()`. -/
def gtk_scrolled_window_new (s : World) : Ptr × World :=
  s.alloc (Cell.widget ⟨true, false, WidgetKind.scrolled_window none⟩)

/-- `gtk_scrolled_window_set_child(scrolled_window, child)`. -/
def gtk_scrolled_window_set_child (s : World) (scrolled_window : Option Ptr) (child : Option Ptr) : World :=
  s.update_widget scrolled_window fun w =>
    match w.kind with
    | WidgetKind.scrolled_window _ => some { w with kind := WidgetKind.scrolled_window child }
    | _ => none

/-- `gtk_widget_set_vexpand(widget, expand)`. -/
def gtk_widget_set_vexpand (s : World) (widget : Option Ptr) (expand : Bool) : World :=
  s.update_widget widget fun w => some { w with vexpand := expand }

/-- `gtk_widget_set_visible(widget, visible)`. -/
def gtk_widget_set_visible (s : World) (widget : Option Ptr) (visible : Bool) : World :=
  s.update_widget widget fun w => some { w with visible := visible }

/-- `webkit_web_view_new()`: a view with no page. -/
def webkit_web_view_new (s : World) : Ptr × World :=
  s.alloc (Cell.widget ⟨true, false, WidgetKind.web_view none⟩)

/-- `webkit_web_view_load_uri(web_view, uri)`: the view starts loading `uri`,
which becomes the URI it reports. -/
def webkit_web_view_load_uri (s : World) (web_view : Option Ptr) (uri : String) : World :=
  s.update_widget web_view fun w =>
    match w.kind with
    | WidgetKind.web_view _ => some { w with kind := WidgetKind.web_view (some uri) }
    | _ => none

/-- `webkit_context_menu_item_new_separator()`. -/
def webkit_context_menu_item_new_separator : WebKitContextMenuItem :=
  WebKitContextMenuItem.separator

/-- `webkit_context_menu_append(menu, item)`. -/
def webkit_context_menu_append (s : World) (menu : Option Ptr) (item : WebKitContextMenuItem) : World :=
  match menu with
  | none => s
  | some a =>
    match s.cell a with
    | some (Cell.context_menu items) => s.store a (Cell.context_menu (items ++ [item]))
    | _ => s

/-- `g_menu_model_get_n_items(model)`. -/
def g_menu_model_get_n_items (s : World) (model : Option Ptr) : Int :=
  match s.menu model with
  | some items => items.length
  | none => 0

/-- `g_menu_model_get_item_attribute(model, i, G_MENU_ATTRIBUTE_LABEL, "s", &label)`:
the label of item `i`, or `NULL` left in `label` when the item has none. -/
def g_menu_model_get_item_attribute_label (s : World) (model : Option Ptr) (i : Nat) : Option String :=
  match s.menu model with
  | some items =>
    match items[i]? with
    | some item => item.label
    | none => none
  | none => none

/-- `g_simple_action_new(name, parameter_type)`. -/
def g_simple_action_new (name : String) (parameter_type : Option String) : GSimpleAction :=
  ⟨name, parameter_type⟩

/-- `webkit_context_menu_item_new_from_gaction(action, label, target)`. -/
def webkit_context_menu_item_new_from_gaction (action : GSimpleAction) (label : String)
    (target : Option String) : WebKitContextMenuItem :=
  WebKitContextMenuItem.from_gaction action label target

/-- `g_object_unref(object)` on an action that a menu item still references:
the action stays alive. -/
def g_object_unref (s : World) (_object : GSimpleAction) : World := s

/-! ## The program: `webview.c` -/

/-- `create_webview_window(title, width, height, url)`, statement by
statement. Returns the handle (`NULL` on allocation failure) and the new
state. -/
def create_webview_window (s : World) (title : String) (width height : Int) (url : String) :
    Option Ptr × World :=
  let (wv, s) := malloc_WebViewWindow s
  if wv.isNone then
    let s := fprintf_stderr s "Memory allocation failed\n"
    (none, s)
  else
    -- Create window
    let (window, s) := gtk_window_new s
    let s := s.update_shell wv fun sh => { sh with window := some window }
    let s := gtk_window_set_title s (wv_window s wv) title
    let s := gtk_window_set_default_size s (wv_window s wv) width height
    let s := g_signal_connect s (wv_window s wv) "destroy" Callback.on_window_destroy none
    -- Create main vertical box
    let (vbox, s) := gtk_box_new s GtkOrientation.VERTICAL 0
    let s := gtk_window_set_child s (wv_window s wv) (some vbox)
    -- Create header bar
    let (header_bar, s) := gtk_header_bar_new s
    let s := gtk_header_bar_set_show_title_buttons s (some header_bar) true
    let s := gtk_window_set_titlebar s (wv_window s wv) (some header_bar)
    -- Create a menu model
    let (menu_model, s) := g_menu_new s
    let (file_menu, s) := g_menu_new s
    -- Add menu items to the File menu
    let s := g_menu_append s (some file_menu) (some "Open") (some "app.open")
    let s := g_menu_append s (some file_menu) (some "Exit") (some "app.exit")
    -- Add File menu to the main menu
    let s := g_menu_append_submenu s (some menu_model) (some "File") (some file_menu)
    -- Create a menu button in the header bar
    let (menu_button, s) := gtk_menu_button_new s
    let (hamburger, s) := gtk_image_new_from_icon_name s "open-menu-symbolic"
    let s := gtk_menu_button_set_child s (some menu_button) (some hamburger)
    let s := gtk_menu_button_set_menu_model s (some menu_button) (some menu_model)
    let s := gtk_header_bar_pack_end s (some header_bar) menu_button
    -- Store the menu bar
    let s := s.update_shell wv fun sh => { sh with menubar := some header_bar }
    -- Set up context (popup) menu
    let (popup, s) := g_menu_new s
    let s := s.update_shell wv fun sh => { sh with popup_menu := some popup }
    -- Create scrolled window
    let (scrolled_window, s) := gtk_scrolled_window_new s
    let s := gtk_box_append s (some vbox) scrolled_window
    let s := gtk_widget_set_vexpand s (some scrolled_window) true
    -- Create WebKit WebView
    let (webview, s) := webkit_web_view_new s
    let s := s.update_shell wv fun sh => { sh with webview := some webview }
    let s := webkit_web_view_load_uri s (wv_webview s wv) url
    let s := gtk_scrolled_window_set_child s (some scrolled_window) (wv_webview s wv)
    (wv, s)

/-- `webview_set_title(wv, title)`. -/
def webview_set_title (s : World) (wv : Option Ptr) (title : String) : World :=
  gtk_window_set_title s (wv_window s wv) title

/-- `webview_navigate(wv, url)`. -/
def webview_navigate (s : World) (wv : Option Ptr) (url : String) : World :=
  webkit_web_view_load_uri s (wv_webview s wv) url

/-- `webview_show(wv)`. -/
def webview_show (s : World) (wv : Option Ptr) : World :=
  gtk_widget_set_visible s (wv_window s wv) true

/-- `webview_run()`: an empty body. -/
def webview_run (s : World) : World := s

/-- One iteration of the loop in `on_context_menu`, for index `i`. -/
def on_context_menu_body (popup_menu context_menu : Option Ptr) (s : World) (i : Nat) : World :=
  match g_menu_model_get_item_attribute_label s popup_menu i with
  | some label =>
    -- Create a simple action for the context menu with WebKit API
    let action := g_simple_action_new label none
    let item := webkit_context_menu_item_new_from_gaction action label none
    let s := webkit_context_menu_append s context_menu item
    g_object_unref s action
  | none => s

/-- `on_context_menu(web_view, context_menu, event, hit_test_result, user_data)`:
returns the `gboolean` result and the new state. The `for` loop runs `i` over
`0, ..., n_items - 1`; nothing in it writes the struct, so `wv->popup_menu` is
read once for the whole loop. -/
def on_context_menu (s : World) (_web_view context_menu _event _hit_test_result : Option Ptr)
    (user_data : Option Ptr) : Bool × World :=
  let wv := user_data
  let s :=
    if (wv_popup_menu s wv).isSome then
      -- Add a separator
      let separator := webkit_context_menu_item_new_separator
      let s := webkit_context_menu_append s context_menu separator
      -- Add our custom menu items from the GMenu
      let n_items := g_menu_model_get_n_items s (wv_popup_menu s wv)
      (List.range n_items.toNat).foldl (on_context_menu_body (wv_popup_menu s wv) context_menu) s
    else s
  (false, s)

/-- `webview_add_context_menu_item(wv, label)`. -/
def webview_add_context_menu_item (s : World) (wv : Option Ptr) (label : String) : World :=
  -- Initialize popup menu if needed
  let s :=
    if (wv_popup_menu s wv).isNone then
      let (popup, s) := g_menu_new s
      let s := s.update_shell wv fun sh => { sh with popup_menu := some popup }
      g_signal_connect s (wv_webview s wv) "context-menu" Callback.on_context_menu wv
    else s
  -- Add the item to our GMenu
  g_menu_append s (wv_popup_menu s wv) (some label) (some "context.custom")

/-! ## Observations and call sequences -/

/-- The window's title. -/
def window_title (s : World) (wv : Option Ptr) : Option String :=
  match s.widget (wv_window s wv) with
  | some ⟨_, _, WidgetKind.window win⟩ => win.title
  | _ => none

/-- The window's default size. -/
def window_default_size (s : World) (wv : Option Ptr) : Option (Int × Int) :=
  match s.widget (wv_window s wv) with
  | some ⟨_, _, WidgetKind.window win⟩ => some (win.default_width, win.default_height)
  | _ => none

/-- Whether the window is visible. -/
def window_visible (s : World) (wv : Option Ptr) : Option Bool :=
  match s.widget (wv_window s wv) with
  | some ⟨visible, _, WidgetKind.window _⟩ => some visible
  | _ => none

/-- The URI the content view reports. -/
def tracked_url (s : World) (wv : Option Ptr) : Option String :=
  match s.widget (wv_webview s wv) with
  | some ⟨_, _, WidgetKind.web_view uri⟩ => uri
  | _ => none

/-- The context-menu model: `none` when `wv->popup_menu` is `NULL`, else its
items in order. -/
def popup_model (s : World) (wv : Option Ptr) : Option (List GMenuItem) :=
  s.menu (wv_popup_menu s wv)

/-- The entries of the context-menu model; an absent model has none. -/
def popup_entries (s : World) (wv : Option Ptr) : List GMenuItem :=
  (popup_model s wv).getD []

/-- The items of a native popup. -/
def context_menu_items (s : World) (context_menu : Option Ptr) : Option (List WebKitContextMenuItem) :=
  match context_menu with
  | none => none
  | some a =>
    match s.cell a with
    | some (Cell.context_menu items) => some items
    | _ => none

/-- The window's title bar, when it is a header bar. -/
def window_header_bar (s : World) (wv : Option Ptr) : Option GtkHeaderBar :=
  match s.widget (wv_window s wv) with
  | some ⟨_, _, WidgetKind.window win⟩ =>
    match s.widget win.titlebar with
    | some ⟨_, _, WidgetKind.header_bar h⟩ => some h
    | _ => none
  | _ => none

/-- A menu item with its submenu link followed. -/
structure MenuEntry where
  label : Option String
  action : Option String
  submenu : Option (List GMenuItem)
deriving DecidableEq, Repr

/-- The menu shown by the menu button packed in the window's header bar: the
items of its model, each with its submenu. `none` when the header bar does not
hold exactly one menu button with a model. -/
def header_menu (s : World) (wv : Option Ptr) : Option (List MenuEntry) :=
  match window_header_bar s wv with
  | some ⟨_, [button]⟩ =>
    match s.widget (some button) with
    | some ⟨_, _, WidgetKind.menu_button m⟩ =>
      (s.menu m.menu_model).map fun items =>
        items.map fun item => ⟨item.label, item.action, s.menu item.submenu⟩
    | _ => none
  | _ => none

/-- The widget reached from the window through its child box and that box's
only child, a scrolled window: the scrolled window's child. -/
def window_content (s : World) (wv : Option Ptr) : Option Ptr :=
  match s.widget (wv_window s wv) with
  | some ⟨_, _, WidgetKind.window win⟩ =>
    match s.widget win.child with
    | some ⟨_, _, WidgetKind.box ⟨_, _, [scrolled]⟩⟩ =>
      match s.widget (some scrolled) with
      | some ⟨_, _, WidgetKind.scrolled_window child⟩ => child
      | _ => none
    | _ => none
  | _ => none

/-- The entry `webview_add_context_menu_item` records for a label. -/
def custom_entry (label : String) : GMenuItem := ⟨some label, some "context.custom", none⟩

/-- Call `webview_add_context_menu_item` once per label, in order. -/
def add_context_menu_items (s : World) (wv : Option Ptr) (labels : List String) : World :=
  labels.foldl (fun s label => webview_add_context_menu_item s wv label) s

/-- The calls a client may make on a constructed shell. -/
inductive Op where
  | set_title (title : String)
  | navigate (url : String)
  | show
  | add_context_menu_item (label : String)
deriving DecidableEq, Repr

/-- Perform one call. -/
def Op.apply (wv : Option Ptr) (s : World) : Op → World
  | Op.set_title title => webview_set_title s wv title
  | Op.navigate url => webview_navigate s wv url
  | Op.show => webview_show s wv
  | Op.add_context_menu_item label => webview_add_context_menu_item s wv label

/-- Perform a sequence of calls, first to last. -/
def run (wv : Option Ptr) (s : World) (ops : List Op) : World :=
  ops.foldl (Op.apply wv) s

/-- The labels registered by a sequence of calls, in call order. -/
def registered : List Op → List String
  | [] => []
  | Op.add_context_menu_item label :: ops => label :: registered ops
  | _ :: ops => registered ops

/-- The state with an empty heap. -/
def World.empty : World := ⟨[], [], [], false⟩

/-! ## Definitions used by the proofs -/

/-- The default size of a fresh window after
`gtk_window_set_default_size(window, width, height)`: the requested size, or
the initial `0 × 0` when the toolkit rejects the request. -/
def accepted_size (width height : Int) : Int × Int :=
  if width < -1 ∨ height < -1 then (0, 0) else (width, height)

/-- The cells `create_webview_window` leaves at addresses `n`, `n+1`, ...,
`n+10` when the heap had `n` cells. -/
def created_cells (n : Nat) (title : String) (width height : Int) (url : String) : List Cell :=
  [ Cell.shell ⟨some (n + 1), some (n + 10), some (n + 3), some (n + 8)⟩,
    Cell.widget ⟨false, false, WidgetKind.window ⟨some title, (accepted_size width height).1, (accepted_size width height).2,
      some (n + 2), some (n + 3)⟩⟩,
    Cell.widget ⟨true, false, WidgetKind.box ⟨GtkOrientation.VERTICAL, 0, [n + 9]⟩⟩,
    Cell.widget ⟨true, false, WidgetKind.header_bar ⟨true, [n + 6]⟩⟩,
    Cell.menu [⟨some "File", none, some (n + 5)⟩],
    Cell.menu [⟨some "Open", some "app.open", none⟩, ⟨some "Exit", some "app.exit", none⟩],
    Cell.widget ⟨true, false, WidgetKind.menu_button ⟨some (n + 7), some (n + 4)⟩⟩,
    Cell.widget ⟨true, false, WidgetKind.image "open-menu-symbolic"⟩,
    Cell.menu [],
    Cell.widget ⟨true, true, WidgetKind.scrolled_window (some (n + 10))⟩,
    Cell.widget ⟨true, false, WidgetKind.web_view (some url)⟩ ]

/-! The body of `create_webview_window` is cut at the source's own comment
lines into five blocks; `create_blocks` below shows that the function is their
composition. -/

/-- Lines 21-24 of `create_webview_window`: the window. -/
def create_window_block (s : World) (wv : Option Ptr) (title : String) (width height : Int) : World :=
  let (window, s) := gtk_window_new s
  let s := s.update_shell wv fun sh => { sh with window := some window }
  let s := gtk_window_set_title s (wv_window s wv) title
  let s := gtk_window_set_default_size s (wv_window s wv) width height
  g_signal_connect s (wv_window s wv) "destroy" Callback.on_window_destroy none

/-- Lines 27-33: the vertical box and the header bar. -/
def create_header_block (s : World) (wv : Option Ptr) : Ptr × Ptr × World :=
  let (vbox, s) := gtk_box_new s GtkOrientation.VERTICAL 0
  let s := gtk_window_set_child s (wv_window s wv) (some vbox)
  let (header_bar, s) := gtk_header_bar_new s
  let s := gtk_header_bar_set_show_title_buttons s (some header_bar) true
  let s := gtk_window_set_titlebar s (wv_window s wv) (some header_bar)
  (vbox, header_bar, s)

/-- Lines 36-52: the header menu and its button. -/
def create_menu_block (s : World) (header_bar : Ptr) : World :=
  let (menu_model, s) := g_menu_new s
  let (file_menu, s) := g_menu_new s
  let s := g_menu_append s (some file_menu) (some "Open") (some "app.open")
  let s := g_menu_append s (some file_menu) (some "Exit") (some "app.exit")
  let s := g_menu_append_submenu s (some menu_model) (some "File") (some file_menu)
  let (menu_button, s) := gtk_menu_button_new s
  let (hamburger, s) := gtk_image_new_from_icon_name s "open-menu-symbolic"
  let s := gtk_menu_button_set_child s (some menu_button) (some hamburger)
  let s := gtk_menu_button_set_menu_model s (some menu_button) (some menu_model)
  gtk_header_bar_pack_end s (some header_bar) menu_button

/-- Lines 55-58: the `menubar` field and the context-menu model. -/
def create_popup_block (s : World) (wv : Option Ptr) (header_bar : Ptr) : World :=
  let s := s.update_shell wv fun sh => { sh with menubar := some header_bar }
  let (popup, s) := g_menu_new s
  s.update_shell wv fun sh => { sh with popup_menu := some popup }

/-- Lines 61-68: the scrolled window and the web view. -/
def create_content_block (s : World) (wv : Option Ptr) (vbox : Ptr) (url : String) : World :=
  let (scrolled_window, s) := gtk_scrolled_window_new s
  let s := gtk_box_append s (some vbox) scrolled_window
  let s := gtk_widget_set_vexpand s (some scrolled_window) true
  let (webview, s) := webkit_web_view_new s
  let s := s.update_shell wv fun sh => { sh with webview := some webview }
  let s := webkit_web_view_load_uri s (wv_webview s wv) url
  gtk_scrolled_window_set_child s (some scrolled_window) (wv_webview s wv)

/-- The layout every constructed shell keeps: the handle designates the
struct, whose `window`, `webview` and `popup_menu` fields designate a window,
a web view and a menu model. -/
def Shape (s : World) (wv : Option Ptr) : Prop :=
  ∃ a w v p mb, wv = some a ∧ s.cell a = some (Cell.shell ⟨some w, some v, mb, some p⟩) ∧
    (∃ vis vex win, s.cell w = some (Cell.widget ⟨vis, vex, WidgetKind.window win⟩)) ∧
    (∃ vis vex uri, s.cell v = some (Cell.widget ⟨vis, vex, WidgetKind.web_view uri⟩)) ∧
    (∃ items, s.cell p = some (Cell.menu items))

/-- The example used to instantiate the theorems: a shell created in an
empty state. -/
def demo : Option Ptr × World :=
  create_webview_window World.empty "Velo" 800 600 "https://example.com"

/-- The example state with two registered entries and, at address `11`, a
native popup holding two built-in items. -/
def demo_popup : World :=
  ((add_context_menu_items demo.2 demo.1 ["Copy", "Paste"]).alloc
    (Cell.context_menu [WebKitContextMenuItem.stock 1, WebKitContextMenuItem.stock 2])).2

/-- A state holding a struct whose `popup_menu` is `NULL` (address `0`) and an
empty native popup (address `1`). -/
def demo_null : World :=
  ⟨[Cell.shell ⟨none, none, none, none⟩, Cell.context_menu []], [], [], false⟩

/-- The header menu `create_webview_window` builds: one "File" submenu holding
"Open" and "Exit". -/
def file_menu : List MenuEntry :=
  [⟨some "File", none,
    some [⟨some "Open", some "app.open", none⟩, ⟨some "Exit", some "app.exit", none⟩]⟩]

/-- The native item `on_context_menu` builds for a label. -/
def context_item (label : String) : WebKitContextMenuItem :=
  webkit_context_menu_item_new_from_gaction (g_simple_action_new label none) label none

/-- The name of the action a native item is bound to. -/
def WebKitContextMenuItem.action_name : WebKitContextMenuItem → Option String
  | WebKitContextMenuItem.from_gaction action _ _ => some action.name
  | _ => none

/-- The label a native item shows. -/
def WebKitContextMenuItem.label : WebKitContextMenuItem → Option String
  | WebKitContextMenuItem.from_gaction _ label _ => some label
  | _ => none

/-! ## Heap lemmas -/

section heap

variable {α : Type}

theorem getElem?_append_length_add (l cs : List α) (k : Nat) :
    (l ++ cs)[l.length + k]? = cs[k]? := by
  rw [List.getElem?_append_right (Nat.le_add_right _ _)]
  simp

theorem getElem?_append_length (l cs : List α) :
    (l ++ cs)[l.length]? = cs[0]? :=
  getElem?_append_length_add l cs 0

theorem set_append_length_add (l cs : List α) (k : Nat) (c : α) :
    (l ++ cs).set (l.length + k) c = l ++ cs.set k c := by
  rw [List.set_append_right _ _ (Nat.le_add_right _ _)]
  simp

theorem set_append_length (l cs : List α) (c : α) :
    (l ++ cs).set l.length c = l ++ cs.set 0 c :=
  set_append_length_add l cs 0 c

end heap

/-! ## The constructor in closed form -/

/-- The constructor is the composition of its five blocks. -/
theorem create_blocks (s : World) (title : String) (width height : Int) (url : String) :
    create_webview_window s title width height url =
      (let (wv, s) := malloc_WebViewWindow s
       if wv.isNone then (none, fprintf_stderr s "Memory allocation failed\n")
       else
         let s := create_window_block s wv title width height
         let (vbox, header_bar, s) := create_header_block s wv
         let s := create_menu_block s header_bar
         let s := create_popup_block s wv header_bar
         let s := create_content_block s wv vbox url
         (wv, s)) := rfl

theorem create_window_block_eq (l : List Cell) (conns : List SignalConnection) (err : List String)
    (oom : Bool) (title : String) (width height : Int) :
    create_window_block ⟨l ++ [Cell.shell ⟨none, none, none, none⟩], conns, err, oom⟩
        (some l.length) title width height =
      ⟨l ++ [Cell.shell ⟨some (l.length + 1), none, none, none⟩,
             Cell.widget ⟨false, false, WidgetKind.window
               ⟨some title, (accepted_size width height).1, (accepted_size width height).2,
                 none, none⟩⟩],
        conns ++ [⟨l.length + 1, "destroy", Callback.on_window_destroy, none⟩], err, oom⟩ := by
  by_cases hw1 : width < -1 ∨ height < -1
  all_goals (
    simp only [accepted_size, hw1, if_true, if_false]
    unfold create_window_block
    simp -zeta only [hw1, World.alloc, gtk_window_new, World.update_shell, World.cell,
          World.store, gtk_window_set_title, World.update_widget, wv_window, wv_webview,
          World.shell, gtk_window_set_default_size, g_signal_connect, gtk_box_new,
          gtk_window_set_child, gtk_header_bar_new, gtk_header_bar_set_show_title_buttons,
          gtk_window_set_titlebar, g_menu_new, g_menu_append, g_menu_append_item,
          g_menu_append_submenu, gtk_menu_button_new, gtk_image_new_from_icon_name,
          gtk_menu_button_set_child, gtk_menu_button_set_menu_model, gtk_header_bar_pack_end,
          gtk_scrolled_window_new, gtk_box_append, gtk_widget_set_vexpand, webkit_web_view_new,
          webkit_web_view_load_uri, gtk_scrolled_window_set_child,
          or_self, if_false, if_true, Option.bind_some, Option.some_bind, List.length_append,
          List.length_singleton, List.length_cons, List.length_nil, List.append_assoc,
          List.singleton_append, List.cons_append, List.nil_append, List.getElem?_cons_zero,
          List.getElem?_cons_succ, List.set_cons_zero, List.set_cons_succ,
          getElem?_append_length_add, getElem?_append_length, set_append_length_add,
          set_append_length]
    repeat (
      first
      | (try lift_lets
         intro s0
         simp -zeta only [s0, hw1, World.alloc, gtk_window_new, World.update_shell, World.cell,
          World.store, gtk_window_set_title, World.update_widget, wv_window, wv_webview,
          World.shell, gtk_window_set_default_size, g_signal_connect, gtk_box_new,
          gtk_window_set_child, gtk_header_bar_new, gtk_header_bar_set_show_title_buttons,
          gtk_window_set_titlebar, g_menu_new, g_menu_append, g_menu_append_item,
          g_menu_append_submenu, gtk_menu_button_new, gtk_image_new_from_icon_name,
          gtk_menu_button_set_child, gtk_menu_button_set_menu_model, gtk_header_bar_pack_end,
          gtk_scrolled_window_new, gtk_box_append, gtk_widget_set_vexpand, webkit_web_view_new,
          webkit_web_view_load_uri, gtk_scrolled_window_set_child,
          or_self, if_false, if_true, Option.bind_some, Option.some_bind, List.length_append,
          List.length_singleton, List.length_cons, List.length_nil, List.append_assoc,
          List.singleton_append, List.cons_append, List.nil_append, List.getElem?_cons_zero,
          List.getElem?_cons_succ, List.set_cons_zero, List.set_cons_succ,
          getElem?_append_length_add, getElem?_append_length, set_append_length_add,
          set_append_length]
         clear s0))
    simp only [hw1, World.alloc, gtk_window_new, World.update_shell, World.cell,
          World.store, gtk_window_set_title, World.update_widget, wv_window, wv_webview,
          World.shell, gtk_window_set_default_size, g_signal_connect, gtk_box_new,
          gtk_window_set_child, gtk_header_bar_new, gtk_header_bar_set_show_title_buttons,
          gtk_window_set_titlebar, g_menu_new, g_menu_append, g_menu_append_item,
          g_menu_append_submenu, gtk_menu_button_new, gtk_image_new_from_icon_name,
          gtk_menu_button_set_child, gtk_menu_button_set_menu_model, gtk_header_bar_pack_end,
          gtk_scrolled_window_new, gtk_box_append, gtk_widget_set_vexpand, webkit_web_view_new,
          webkit_web_view_load_uri, gtk_scrolled_window_set_child,
          or_self, if_false, if_true, Option.bind_some, Option.some_bind, List.length_append,
          List.length_singleton, List.length_cons, List.length_nil, List.append_assoc,
          List.singleton_append, List.cons_append, List.nil_append, List.getElem?_cons_zero,
          List.getElem?_cons_succ, List.set_cons_zero, List.set_cons_succ,
          getElem?_append_length_add, getElem?_append_length, set_append_length_add,
          set_append_length])

theorem create_header_block_eq (l : List Cell) (conns : List SignalConnection) (err : List String)
    (oom : Bool) (sh : WebViewWindow) (vis vex : Bool) (win : GtkWindow)
    (hsh : sh.window = some (l.length + 1)) :
    create_header_block ⟨l ++ [Cell.shell sh, Cell.widget ⟨vis, vex, WidgetKind.window win⟩],
        conns, err, oom⟩ (some l.length) =
      (l.length + 2, l.length + 3,
        ⟨l ++ [Cell.shell sh,
               Cell.widget ⟨vis, vex, WidgetKind.window
                 { win with child := some (l.length + 2), titlebar := some (l.length + 3) }⟩,
               Cell.widget ⟨true, false, WidgetKind.box ⟨GtkOrientation.VERTICAL, 0, []⟩⟩,
               Cell.widget ⟨true, false, WidgetKind.header_bar ⟨true, []⟩⟩],
          conns, err, oom⟩) := by
  unfold create_header_block
  simp -zeta only [hsh, World.alloc, gtk_window_new, World.update_shell, World.cell,
        World.store, gtk_window_set_title, World.update_widget, wv_window, wv_webview,
        World.shell, gtk_window_set_default_size, g_signal_connect, gtk_box_new,
        gtk_window_set_child, gtk_header_bar_new, gtk_header_bar_set_show_title_buttons,
        gtk_window_set_titlebar, g_menu_new, g_menu_append, g_menu_append_item,
        g_menu_append_submenu, gtk_menu_button_new, gtk_image_new_from_icon_name,
        gtk_menu_button_set_child, gtk_menu_button_set_menu_model, gtk_header_bar_pack_end,
        gtk_scrolled_window_new, gtk_box_append, gtk_widget_set_vexpand, webkit_web_view_new,
        webkit_web_view_load_uri, gtk_scrolled_window_set_child,
        or_self, if_false, Option.bind_some, Option.some_bind, List.length_append,
        List.length_singleton, List.length_cons, List.length_nil, List.append_assoc,
        List.singleton_append, List.cons_append, List.nil_append, List.getElem?_cons_zero,
        List.getElem?_cons_succ, List.set_cons_zero, List.set_cons_succ,
        getElem?_append_length_add, getElem?_append_length, set_append_length_add,
        set_append_length]
  repeat (
    first
    | (try lift_lets
       intro s0
       simp -zeta only [s0, hsh, World.alloc, gtk_window_new, World.update_shell, World.cell,
        World.store, gtk_window_set_title, World.update_widget, wv_window, wv_webview,
        World.shell, gtk_window_set_default_size, g_signal_connect, gtk_box_new,
        gtk_window_set_child, gtk_header_bar_new, gtk_header_bar_set_show_title_buttons,
        gtk_window_set_titlebar, g_menu_new, g_menu_append, g_menu_append_item,
        g_menu_append_submenu, gtk_menu_button_new, gtk_image_new_from_icon_name,
        gtk_menu_button_set_child, gtk_menu_button_set_menu_model, gtk_header_bar_pack_end,
        gtk_scrolled_window_new, gtk_box_append, gtk_widget_set_vexpand, webkit_web_view_new,
        webkit_web_view_load_uri, gtk_scrolled_window_set_child,
        or_self, if_false, Option.bind_some, Option.some_bind, List.length_append,
        List.length_singleton, List.length_cons, List.length_nil, List.append_assoc,
        List.singleton_append, List.cons_append, List.nil_append, List.getElem?_cons_zero,
        List.getElem?_cons_succ, List.set_cons_zero, List.set_cons_succ,
        getElem?_append_length_add, getElem?_append_length, set_append_length_add,
        set_append_length]
       clear s0))
  simp only [hsh, World.alloc, gtk_window_new, World.update_shell, World.cell,
        World.store, gtk_window_set_title, World.update_widget, wv_window, wv_webview,
        World.shell, gtk_window_set_default_size, g_signal_connect, gtk_box_new,
        gtk_window_set_child, gtk_header_bar_new, gtk_header_bar_set_show_title_buttons,
        gtk_window_set_titlebar, g_menu_new, g_menu_append, g_menu_append_item,
        g_menu_append_submenu, gtk_menu_button_new, gtk_image_new_from_icon_name,
        gtk_menu_button_set_child, gtk_menu_button_set_menu_model, gtk_header_bar_pack_end,
        gtk_scrolled_window_new, gtk_box_append, gtk_widget_set_vexpand, webkit_web_view_new,
        webkit_web_view_load_uri, gtk_scrolled_window_set_child,
        or_self, if_false, Option.bind_some, Option.some_bind, List.length_append,
        List.length_singleton, List.length_cons, List.length_nil, List.append_assoc,
        List.singleton_append, List.cons_append, List.nil_append, List.getElem?_cons_zero,
        List.getElem?_cons_succ, List.set_cons_zero, List.set_cons_succ,
        getElem?_append_length_add, getElem?_append_length, set_append_length_add,
        set_append_length]

theorem create_menu_block_eq (l : List Cell) (conns : List SignalConnection) (err : List String)
    (oom : Bool) (c0 c1 c2 : Cell) (vis vex : Bool) (h : GtkHeaderBar) :
    create_menu_block ⟨l ++ [c0, c1, c2, Cell.widget ⟨vis, vex, WidgetKind.header_bar h⟩],
        conns, err, oom⟩ (l.length + 3) =
      ⟨l ++ [c0, c1, c2,
             Cell.widget ⟨vis, vex, WidgetKind.header_bar { h with end_widgets := h.end_widgets ++ [l.length + 6] }⟩,
             Cell.menu [⟨some "File", none, some (l.length + 5)⟩],
             Cell.menu [⟨some "Open", some "app.open", none⟩, ⟨some "Exit", some "app.exit", none⟩],
             Cell.widget ⟨true, false, WidgetKind.menu_button ⟨some (l.length + 7), some (l.length + 4)⟩⟩,
             Cell.widget ⟨true, false, WidgetKind.image "open-menu-symbolic"⟩],
        conns, err, oom⟩ := by
  unfold create_menu_block
  simp -zeta only [World.alloc, gtk_window_new, World.update_shell, World.cell,
        World.store, gtk_window_set_title, World.update_widget, wv_window, wv_webview,
        World.shell, gtk_window_set_default_size, g_signal_connect, gtk_box_new,
        gtk_window_set_child, gtk_header_bar_new, gtk_header_bar_set_show_title_buttons,
        gtk_window_set_titlebar, g_menu_new, g_menu_append, g_menu_append_item,
        g_menu_append_submenu, gtk_menu_button_new, gtk_image_new_from_icon_name,
        gtk_menu_button_set_child, gtk_menu_button_set_menu_model, gtk_header_bar_pack_end,
        gtk_scrolled_window_new, gtk_box_append, gtk_widget_set_vexpand, webkit_web_view_new,
        webkit_web_view_load_uri, gtk_scrolled_window_set_child,
        or_self, if_false, Option.bind_some, Option.some_bind, List.length_append,
        List.length_singleton, List.length_cons, List.length_nil, List.append_assoc,
        List.singleton_append, List.cons_append, List.nil_append, List.getElem?_cons_zero,
        List.getElem?_cons_succ, List.set_cons_zero, List.set_cons_succ,
        getElem?_append_length_add, getElem?_append_length, set_append_length_add,
        set_append_length]
  repeat (
    first
    | (try lift_lets
       intro s0
       simp -zeta only [s0, World.alloc, gtk_window_new, World.update_shell, World.cell,
        World.store, gtk_window_set_title, World.update_widget, wv_window, wv_webview,
        World.shell, gtk_window_set_default_size, g_signal_connect, gtk_box_new,
        gtk_window_set_child, gtk_header_bar_new, gtk_header_bar_set_show_title_buttons,
        gtk_window_set_titlebar, g_menu_new, g_menu_append, g_menu_append_item,
        g_menu_append_submenu, gtk_menu_button_new, gtk_image_new_from_icon_name,
        gtk_menu_button_set_child, gtk_menu_button_set_menu_model, gtk_header_bar_pack_end,
        gtk_scrolled_window_new, gtk_box_append, gtk_widget_set_vexpand, webkit_web_view_new,
        webkit_web_view_load_uri, gtk_scrolled_window_set_child,
        or_self, if_false, Option.bind_some, Option.some_bind, List.length_append,
        List.length_singleton, List.length_cons, List.length_nil, List.append_assoc,
        List.singleton_append, List.cons_append, List.nil_append, List.getElem?_cons_zero,
        List.getElem?_cons_succ, List.set_cons_zero, List.set_cons_succ,
        getElem?_append_length_add, getElem?_append_length, set_append_length_add,
        set_append_length]
       clear s0))
  simp only [World.alloc, gtk_window_new, World.update_shell, World.cell,
        World.store, gtk_window_set_title, World.update_widget, wv_window, wv_webview,
        World.shell, gtk_window_set_default_size, g_signal_connect, gtk_box_new,
        gtk_window_set_child, gtk_header_bar_new, gtk_header_bar_set_show_title_buttons,
        gtk_window_set_titlebar, g_menu_new, g_menu_append, g_menu_append_item,
        g_menu_append_submenu, gtk_menu_button_new, gtk_image_new_from_icon_name,
        gtk_menu_button_set_child, gtk_menu_button_set_menu_model, gtk_header_bar_pack_end,
        gtk_scrolled_window_new, gtk_box_append, gtk_widget_set_vexpand, webkit_web_view_new,
        webkit_web_view_load_uri, gtk_scrolled_window_set_child,
        or_self, if_false, Option.bind_some, Option.some_bind, List.length_append,
        List.length_singleton, List.length_cons, List.length_nil, List.append_assoc,
        List.singleton_append, List.cons_append, List.nil_append, List.getElem?_cons_zero,
        List.getElem?_cons_succ, List.set_cons_zero, List.set_cons_succ,
        getElem?_append_length_add, getElem?_append_length, set_append_length_add,
        set_append_length]

theorem create_popup_block_eq (l : List Cell) (conns : List SignalConnection) (err : List String)
    (oom : Bool) (sh : WebViewWindow) (c1 c2 c3 c4 c5 c6 c7 : Cell) :
    create_popup_block ⟨l ++ [Cell.shell sh, c1, c2, c3, c4, c5, c6, c7], conns, err, oom⟩
        (some l.length) (l.length + 3) =
      ⟨l ++ [Cell.shell { sh with menubar := some (l.length + 3), popup_menu := some (l.length + 8) },
             c1, c2, c3, c4, c5, c6, c7, Cell.menu []],
        conns, err, oom⟩ := by
  unfold create_popup_block
  simp only [World.alloc, gtk_window_new, World.update_shell, World.cell,
        World.store, gtk_window_set_title, World.update_widget, wv_window, wv_webview,
        World.shell, gtk_window_set_default_size, g_signal_connect, gtk_box_new,
        gtk_window_set_child, gtk_header_bar_new, gtk_header_bar_set_show_title_buttons,
        gtk_window_set_titlebar, g_menu_new, g_menu_append, g_menu_append_item,
        g_menu_append_submenu, gtk_menu_button_new, gtk_image_new_from_icon_name,
        gtk_menu_button_set_child, gtk_menu_button_set_menu_model, gtk_header_bar_pack_end,
        gtk_scrolled_window_new, gtk_box_append, gtk_widget_set_vexpand, webkit_web_view_new,
        webkit_web_view_load_uri, gtk_scrolled_window_set_child,
        or_self, if_false, Option.bind_some, Option.some_bind, List.length_append,
        List.length_singleton, List.length_cons, List.length_nil, List.append_assoc,
        List.singleton_append, List.cons_append, List.nil_append, List.getElem?_cons_zero,
        List.getElem?_cons_succ, List.set_cons_zero, List.set_cons_succ,
        getElem?_append_length_add, getElem?_append_length, set_append_length_add,
        set_append_length]

theorem create_content_block_eq (l : List Cell) (conns : List SignalConnection) (err : List String)
    (oom : Bool) (sh : WebViewWindow) (c1 c3 c4 c5 c6 c7 c8 : Cell) (vis vex : Bool) (b : GtkBox)
    (url : String) :
    create_content_block
        ⟨l ++ [Cell.shell sh, c1, Cell.widget ⟨vis, vex, WidgetKind.box b⟩, c3, c4, c5, c6, c7, c8],
          conns, err, oom⟩ (some l.length) (l.length + 2) url =
      ⟨l ++ [Cell.shell { sh with webview := some (l.length + 10) },
             c1,
             Cell.widget ⟨vis, vex, WidgetKind.box { b with children := b.children ++ [l.length + 9] }⟩,
             c3, c4, c5, c6, c7, c8,
             Cell.widget ⟨true, true, WidgetKind.scrolled_window (some (l.length + 10))⟩,
             Cell.widget ⟨true, false, WidgetKind.web_view (some url)⟩],
        conns, err, oom⟩ := by
  unfold create_content_block
  simp -zeta only [World.alloc, gtk_window_new, World.update_shell, World.cell,
        World.store, gtk_window_set_title, World.update_widget, wv_window, wv_webview,
        World.shell, gtk_window_set_default_size, g_signal_connect, gtk_box_new,
        gtk_window_set_child, gtk_header_bar_new, gtk_header_bar_set_show_title_buttons,
        gtk_window_set_titlebar, g_menu_new, g_menu_append, g_menu_append_item,
        g_menu_append_submenu, gtk_menu_button_new, gtk_image_new_from_icon_name,
        gtk_menu_button_set_child, gtk_menu_button_set_menu_model, gtk_header_bar_pack_end,
        gtk_scrolled_window_new, gtk_box_append, gtk_widget_set_vexpand, webkit_web_view_new,
        webkit_web_view_load_uri, gtk_scrolled_window_set_child,
        or_self, if_false, Option.bind_some, Option.some_bind, List.length_append,
        List.length_singleton, List.length_cons, List.length_nil, List.append_assoc,
        List.singleton_append, List.cons_append, List.nil_append, List.getElem?_cons_zero,
        List.getElem?_cons_succ, List.set_cons_zero, List.set_cons_succ,
        getElem?_append_length_add, getElem?_append_length, set_append_length_add,
        set_append_length]
  repeat (
    first
    | (try lift_lets
       intro s0
       simp -zeta only [s0, World.alloc, gtk_window_new, World.update_shell, World.cell,
        World.store, gtk_window_set_title, World.update_widget, wv_window, wv_webview,
        World.shell, gtk_window_set_default_size, g_signal_connect, gtk_box_new,
        gtk_window_set_child, gtk_header_bar_new, gtk_header_bar_set_show_title_buttons,
        gtk_window_set_titlebar, g_menu_new, g_menu_append, g_menu_append_item,
        g_menu_append_submenu, gtk_menu_button_new, gtk_image_new_from_icon_name,
        gtk_menu_button_set_child, gtk_menu_button_set_menu_model, gtk_header_bar_pack_end,
        gtk_scrolled_window_new, gtk_box_append, gtk_widget_set_vexpand, webkit_web_view_new,
        webkit_web_view_load_uri, gtk_scrolled_window_set_child,
        or_self, if_false, Option.bind_some, Option.some_bind, List.length_append,
        List.length_singleton, List.length_cons, List.length_nil, List.append_assoc,
        List.singleton_append, List.cons_append, List.nil_append, List.getElem?_cons_zero,
        List.getElem?_cons_succ, List.set_cons_zero, List.set_cons_succ,
        getElem?_append_length_add, getElem?_append_length, set_append_length_add,
        set_append_length]
       clear s0))
  simp only [World.alloc, gtk_window_new, World.update_shell, World.cell,
        World.store, gtk_window_set_title, World.update_widget, wv_window, wv_webview,
        World.shell, gtk_window_set_default_size, g_signal_connect, gtk_box_new,
        gtk_window_set_child, gtk_header_bar_new, gtk_header_bar_set_show_title_buttons,
        gtk_window_set_titlebar, g_menu_new, g_menu_append, g_menu_append_item,
        g_menu_append_submenu, gtk_menu_button_new, gtk_image_new_from_icon_name,
        gtk_menu_button_set_child, gtk_menu_button_set_menu_model, gtk_header_bar_pack_end,
        gtk_scrolled_window_new, gtk_box_append, gtk_widget_set_vexpand, webkit_web_view_new,
        webkit_web_view_load_uri, gtk_scrolled_window_set_child,
        or_self, if_false, Option.bind_some, Option.some_bind, List.length_append,
        List.length_singleton, List.length_cons, List.length_nil, List.append_assoc,
        List.singleton_append, List.cons_append, List.nil_append, List.getElem?_cons_zero,
        List.getElem?_cons_succ, List.set_cons_zero, List.set_cons_succ,
        getElem?_append_length_add, getElem?_append_length, set_append_length_add,
        set_append_length]

/-- With memory available the constructor returns the address of the first
fresh cell, appends `created_cells` to the heap and registers the window's
"destroy" handler; nothing else changes. -/
theorem create_ok (s : World) (title : String) (width height : Int) (url : String)
    (hm : s.oom = false) :
    create_webview_window s title width height url =
      (some s.heap.length,
        { s with
          heap := s.heap ++ created_cells s.heap.length title width height url,
          connections := s.connections ++
            [⟨s.heap.length + 1, "destroy", Callback.on_window_destroy, none⟩] }) := by
  obtain ⟨l, conns, err, oom⟩ := s
  simp only at hm
  subst hm
  rw [create_blocks]
  simp only [malloc_WebViewWindow, World.alloc, Bool.false_eq_true, if_false, Option.isNone_some,
    create_window_block_eq l conns err false title width height]
  rw [create_header_block_eq l _ err false _ false false _ rfl]
  simp only [create_menu_block_eq, create_popup_block_eq, create_content_block_eq, created_cells,
    List.nil_append]

/-! ## Effects of the operations on a constructed shell -/

/-- Reading a cell after a store. -/
theorem cell_store (s : World) (a b : Ptr) (c : Cell) :
    (s.store a c).cell b = if a = b then (s.cell a).map (fun _ => c) else s.cell b := by
  simp only [World.store, World.cell, List.getElem?_set]
  by_cases h : a = b
  · subst h
    by_cases h2 : a < s.heap.length
    · simp [h2]
    · simp [h2, List.getElem?_eq_none (Nat.le_of_not_lt h2)]
  · simp [h]

theorem cell_store_self (s : World) (a : Ptr) (c c0 : Cell) (h : s.cell a = some c0) :
    (s.store a c).cell a = some c := by
  simp [cell_store, h]

theorem cell_store_ne (s : World) (a b : Ptr) (c : Cell) (h : a ≠ b) :
    (s.store a c).cell b = s.cell b := by
  simp [cell_store, h]

theorem store_connections (s : World) (a : Ptr) (c : Cell) :
    (s.store a c).connections = s.connections := rfl

theorem store_store (s : World) (a : Ptr) (c d : Cell) :
    (s.store a c).store a d = s.store a d := by
  simp [World.store, List.set_set]

/-- What `webview_set_title` changes and keeps on a shell of the usual shape. -/
theorem set_title_effect (s : World) (wv : Option Ptr) (title : String) (h : Shape s wv) :
    Shape (webview_set_title s wv title) wv ∧
    window_title (webview_set_title s wv title) wv = some title ∧
    window_default_size (webview_set_title s wv title) wv = window_default_size s wv ∧
    window_visible (webview_set_title s wv title) wv = window_visible s wv ∧
    tracked_url (webview_set_title s wv title) wv = tracked_url s wv ∧
    popup_model (webview_set_title s wv title) wv = popup_model s wv ∧
    (webview_set_title s wv title).connections = s.connections := by
  obtain ⟨a, w, v, p, mb, rfl, ha, ⟨vis, vex, win, hw⟩, ⟨vis2, vex2, uri, hv⟩, ⟨items, hp⟩⟩ := h
  have haw : w ≠ a := by rintro rfl; rw [ha] at hw; cases hw
  have hvw : w ≠ v := by rintro rfl; rw [hv] at hw; cases hw
  have hpw : w ≠ p := by rintro rfl; rw [hp] at hw; cases hw
  have e : webview_set_title s (some a) title =
      s.store w (Cell.widget ⟨vis, vex, WidgetKind.window { win with title := some title }⟩) := by
    simp [webview_set_title, gtk_window_set_title, wv_window, World.shell, World.update_widget,
      ha, hw]
  rw [e]
  refine ⟨⟨a, w, v, p, mb, rfl, ?_, ⟨vis, vex, _, cell_store_self _ _ _ _ hw⟩,
    ⟨vis2, vex2, uri, ?_⟩, ⟨items, ?_⟩⟩, ?_⟩
  · rw [cell_store_ne _ _ _ _ haw, ha]
  · rw [cell_store_ne _ _ _ _ hvw, hv]
  · rw [cell_store_ne _ _ _ _ hpw, hp]
  · simp [window_title, window_default_size, window_visible, tracked_url, popup_model, wv_window,
      wv_webview, wv_popup_menu, World.shell, World.widget, World.menu, cell_store, haw, hvw, hpw,
      ha, hw, hv, hp, store_connections]

/-- What `webview_navigate` changes and keeps. -/
theorem navigate_effect (s : World) (wv : Option Ptr) (url : String) (h : Shape s wv) :
    Shape (webview_navigate s wv url) wv ∧
    tracked_url (webview_navigate s wv url) wv = some url ∧
    window_title (webview_navigate s wv url) wv = window_title s wv ∧
    window_default_size (webview_navigate s wv url) wv = window_default_size s wv ∧
    window_visible (webview_navigate s wv url) wv = window_visible s wv ∧
    popup_model (webview_navigate s wv url) wv = popup_model s wv ∧
    (webview_navigate s wv url).connections = s.connections := by
  obtain ⟨a, w, v, p, mb, rfl, ha, ⟨vis, vex, win, hw⟩, ⟨vis2, vex2, uri, hv⟩, ⟨items, hp⟩⟩ := h
  have hav : v ≠ a := by rintro rfl; rw [ha] at hv; cases hv
  have hwv : v ≠ w := by rintro rfl; rw [hv] at hw; cases hw
  have hpv : v ≠ p := by rintro rfl; rw [hp] at hv; cases hv
  have e : webview_navigate s (some a) url =
      s.store v (Cell.widget ⟨vis2, vex2, WidgetKind.web_view (some url)⟩) := by
    simp [webview_navigate, webkit_web_view_load_uri, wv_webview, World.shell,
      World.update_widget, ha, hv]
  rw [e]
  refine ⟨⟨a, w, v, p, mb, rfl, ?_, ⟨vis, vex, win, ?_⟩,
    ⟨vis2, vex2, _, cell_store_self _ _ _ _ hv⟩, ⟨items, ?_⟩⟩, ?_⟩
  · rw [cell_store_ne _ _ _ _ hav, ha]
  · rw [cell_store_ne _ _ _ _ hwv, hw]
  · rw [cell_store_ne _ _ _ _ hpv, hp]
  · simp [window_title, window_default_size, window_visible, tracked_url, popup_model, wv_window,
      wv_webview, wv_popup_menu, World.shell, World.widget, World.menu, cell_store, hav, hwv, hpv,
      ha, hw, hv, hp, store_connections]

/-- What `webview_show` changes and keeps. -/
theorem show_effect (s : World) (wv : Option Ptr) (h : Shape s wv) :
    Shape (webview_show s wv) wv ∧
    window_visible (webview_show s wv) wv = some true ∧
    window_title (webview_show s wv) wv = window_title s wv ∧
    window_default_size (webview_show s wv) wv = window_default_size s wv ∧
    tracked_url (webview_show s wv) wv = tracked_url s wv ∧
    popup_model (webview_show s wv) wv = popup_model s wv ∧
    (webview_show s wv).connections = s.connections := by
  obtain ⟨a, w, v, p, mb, rfl, ha, ⟨vis, vex, win, hw⟩, ⟨vis2, vex2, uri, hv⟩, ⟨items, hp⟩⟩ := h
  have haw : w ≠ a := by rintro rfl; rw [ha] at hw; cases hw
  have hvw : w ≠ v := by rintro rfl; rw [hv] at hw; cases hw
  have hpw : w ≠ p := by rintro rfl; rw [hp] at hw; cases hw
  have e : webview_show s (some a) =
      s.store w (Cell.widget ⟨true, vex, WidgetKind.window win⟩) := by
    simp [webview_show, gtk_widget_set_visible, wv_window, World.shell, World.update_widget,
      ha, hw]
  rw [e]
  refine ⟨⟨a, w, v, p, mb, rfl, ?_, ⟨true, vex, win, cell_store_self _ _ _ _ hw⟩,
    ⟨vis2, vex2, uri, ?_⟩, ⟨items, ?_⟩⟩, ?_⟩
  · rw [cell_store_ne _ _ _ _ haw, ha]
  · rw [cell_store_ne _ _ _ _ hvw, hv]
  · rw [cell_store_ne _ _ _ _ hpw, hp]
  · simp [window_title, window_default_size, window_visible, tracked_url, popup_model, wv_window,
      wv_webview, wv_popup_menu, World.shell, World.widget, World.menu, cell_store, haw, hvw, hpw,
      ha, hw, hv, hp, store_connections]

/-- What `webview_add_context_menu_item` changes and keeps when the model is
already allocated. -/
theorem add_effect (s : World) (wv : Option Ptr) (label : String) (h : Shape s wv) :
    Shape (webview_add_context_menu_item s wv label) wv ∧
    popup_model (webview_add_context_menu_item s wv label) wv =
      some (popup_entries s wv ++ [custom_entry label]) ∧
    (popup_model s wv).isSome ∧
    window_title (webview_add_context_menu_item s wv label) wv = window_title s wv ∧
    window_default_size (webview_add_context_menu_item s wv label) wv =
      window_default_size s wv ∧
    window_visible (webview_add_context_menu_item s wv label) wv = window_visible s wv ∧
    tracked_url (webview_add_context_menu_item s wv label) wv = tracked_url s wv ∧
    (webview_add_context_menu_item s wv label).connections = s.connections := by
  obtain ⟨a, w, v, p, mb, rfl, ha, ⟨vis, vex, win, hw⟩, ⟨vis2, vex2, uri, hv⟩, ⟨items, hp⟩⟩ := h
  have hap : p ≠ a := by rintro rfl; rw [ha] at hp; cases hp
  have hwp : p ≠ w := by rintro rfl; rw [hp] at hw; cases hw
  have hvp : p ≠ v := by rintro rfl; rw [hp] at hv; cases hv
  have e : webview_add_context_menu_item s (some a) label =
      s.store p (Cell.menu (items ++ [custom_entry label])) := by
    simp [webview_add_context_menu_item, g_menu_append, g_menu_append_item, wv_popup_menu,
      World.shell, ha, hp, custom_entry]
  rw [e]
  refine ⟨⟨a, w, v, p, mb, rfl, ?_, ⟨vis, vex, win, ?_⟩, ⟨vis2, vex2, uri, ?_⟩,
    ⟨_, cell_store_self _ _ _ _ hp⟩⟩, ?_⟩
  · rw [cell_store_ne _ _ _ _ hap, ha]
  · rw [cell_store_ne _ _ _ _ hwp, hw]
  · rw [cell_store_ne _ _ _ _ hvp, hv]
  · simp [window_title, window_default_size, window_visible, tracked_url, popup_model,
      popup_entries, wv_window, wv_webview, wv_popup_menu, World.shell, World.widget, World.menu,
      cell_store, hap, hwp, hvp, ha, hw, hv, hp, store_connections]

/-- The constructor establishes the shape, and every call keeps it. -/
theorem create_shape (s0 : World) (title : String) (width height : Int) (url : String)
    (hm : s0.oom = false) :
    Shape (create_webview_window s0 title width height url).2
      (create_webview_window s0 title width height url).1 := by
  rw [create_ok s0 title width height url hm]
  refine ⟨s0.heap.length, s0.heap.length + 1, s0.heap.length + 10, s0.heap.length + 8,
    some (s0.heap.length + 3), rfl, ?_,
    ⟨false, false, ⟨some title, (accepted_size width height).1, (accepted_size width height).2,
      some (s0.heap.length + 2), some (s0.heap.length + 3)⟩, ?_⟩,
    ⟨true, false, some url, ?_⟩, ⟨[], ?_⟩⟩ <;>
  simp only [World.cell, created_cells, getElem?_append_length_add, getElem?_append_length,
    List.getElem?_cons_succ, List.getElem?_cons_zero]

theorem apply_shape (wv : Option Ptr) (s : World) (op : Op) (h : Shape s wv) :
    Shape (op.apply wv s) wv := by
  rcases op with title | url | _ | label
  · exact (set_title_effect s wv title h).1
  · exact (navigate_effect s wv url h).1
  · exact (show_effect s wv h).1
  · exact (add_effect s wv label h).1

theorem run_shape (wv : Option Ptr) (ops : List Op) (s : World) (h : Shape s wv) :
    Shape (run wv s ops) wv := by
  induction ops generalizing s with
  | nil => exact h
  | cons op ops ih => exact ih _ (apply_shape wv s op h)

theorem run_append (wv : Option Ptr) (s : World) (ops ops2 : List Op) :
    run wv s (ops ++ ops2) = run wv (run wv s ops) ops2 := by
  simp [run, List.foldl_append]

theorem add_items_shape (wv : Option Ptr) (labels : List String) (s : World) (h : Shape s wv) :
    Shape (add_context_menu_items s wv labels) wv ∧
    popup_model (add_context_menu_items s wv labels) wv =
      some (popup_entries s wv ++ labels.map custom_entry) := by
  induction labels generalizing s with
  | nil =>
    refine ⟨h, ?_⟩
    obtain ⟨a, w, v, p, mb, rfl, ha, -, -, ⟨items, hp⟩⟩ := h
    simp [add_context_menu_items, popup_entries, popup_model, wv_popup_menu, World.shell,
      World.menu, ha, hp]
  | cons label labels ih =>
    have e := add_effect s wv label h
    have := ih (webview_add_context_menu_item s wv label) e.1
    refine ⟨this.1, ?_⟩
    have h2 := this.2
    simp only [add_context_menu_items, List.foldl_cons] at h2 ⊢
    rw [h2]
    simp [popup_entries, e.2.1]


/-- A call sequence appends exactly its registered labels to the model and
leaves the signal registrations alone. -/
theorem run_effect (wv : Option Ptr) (ops : List Op) (s : World) (h : Shape s wv) :
    popup_model (run wv s ops) wv =
      some (popup_entries s wv ++ (registered ops).map custom_entry) ∧
    (run wv s ops).connections = s.connections := by
  induction ops generalizing s with
  | nil =>
    obtain ⟨a, w, v, p, mb, rfl, ha, -, -, ⟨items, hp⟩⟩ := h
    simp [run, registered, popup_entries, popup_model, wv_popup_menu, World.shell, World.menu,
      ha, hp]
  | cons op ops ih =>
    have ih2 := ih (op.apply wv s) (apply_shape wv s op h)
    have hrun : run wv s (op :: ops) = run wv (op.apply wv s) ops := rfl
    rw [hrun, ih2.1, ih2.2]
    rcases op with title | url | _ | label
    · have e := set_title_effect s wv title h
      simp [Op.apply, registered, popup_entries, e.2.2.2.2.2.1, e.2.2.2.2.2.2]
    · have e := navigate_effect s wv url h
      simp [Op.apply, registered, popup_entries, e.2.2.2.2.2.1, e.2.2.2.2.2.2]
    · have e := show_effect s wv h
      simp [Op.apply, registered, popup_entries, e.2.2.2.2.2.1, e.2.2.2.2.2.2]
    · have e := add_effect s wv label h
      simp [Op.apply, registered, popup_entries, e.2.1, e.2.2.2.2.2.2.2]

theorem store_same (s : World) (a : Ptr) (c : Cell) (h : s.cell a = some c) :
    s.store a c = s := by
  obtain ⟨heap, conns, err, oom⟩ := s
  simp only [World.store, World.mk.injEq, and_true]
  apply List.ext_getElem?
  intro i
  have := cell_store ⟨heap, conns, err, oom⟩ a i c
  simp only [World.store, World.cell] at this h
  rw [this]
  by_cases hi : a = i
  · subst hi
    simp [h]
  · simp [hi]

/-- The loop of `on_context_menu` after `k` iterations. -/
theorem context_menu_loop (s : World) (p cm : Ptr) (items : List GMenuItem)
    (Q : List WebKitContextMenuItem) (hm : s.cell p = some (Cell.menu items))
    (hcm : s.cell cm = some (Cell.context_menu Q)) (k : Nat) (hk : k ≤ items.length) :
    (List.range k).foldl (on_context_menu_body (some p) (some cm)) s =
      s.store cm (Cell.context_menu
        (Q ++ (items.take k).filterMap fun e => e.label.map context_item)) := by
  have hne : cm ≠ p := by rintro rfl; rw [hm] at hcm; cases hcm
  induction k with
  | zero => simp [store_same s cm _ hcm]
  | succ k ih =>
    have hk2 : k < items.length := hk
    rw [List.range_succ, List.foldl_append, ih (Nat.le_of_lt hk2)]
    have hitem : items[k]? = some items[k] := List.getElem?_eq_getElem hk2
    have htake : items.take (k + 1) = items.take k ++ [items[k]] := by
      rw [List.take_succ, hitem]; rfl
    rw [htake, List.filterMap_append, ← List.append_assoc]
    simp only [List.foldl_cons, List.foldl_nil, on_context_menu_body,
      g_menu_model_get_item_attribute_label, World.menu, cell_store_ne _ _ _ _ hne, hm, hitem]
    cases hl : items[k].label with
    | none => simp [hl]
    | some label =>
      simp [webkit_context_menu_append, cell_store_self _ _ _ _ hcm, store_store, g_object_unref,
        context_item, hl]

/-- The whole of `on_context_menu` when the model is present: one store into
the native popup. -/
theorem on_context_menu_eval (s : World) (web_view event hit_test_result : Option Ptr)
    (a p cm : Ptr) (sh : WebViewWindow) (items : List GMenuItem) (P : List WebKitContextMenuItem)
    (ha : s.cell a = some (Cell.shell sh)) (hp : sh.popup_menu = some p)
    (hm : s.cell p = some (Cell.menu items)) (hcm : s.cell cm = some (Cell.context_menu P)) :
    on_context_menu s web_view (some cm) event hit_test_result (some a) =
      (false, s.store cm (Cell.context_menu
        (P ++ WebKitContextMenuItem.separator ::
          items.filterMap fun e => e.label.map context_item))) := by
  have hca : cm ≠ a := by rintro rfl; rw [ha] at hcm; cases hcm
  have hcp : cm ≠ p := by rintro rfl; rw [hm] at hcm; cases hcm
  have h1 : wv_popup_menu s (some a) = some p := by
    simp [wv_popup_menu, World.shell, ha, hp]
  have h2 : ∀ c, wv_popup_menu (s.store cm c) (some a) = some p := by
    intro c
    simp [wv_popup_menu, World.shell, cell_store_ne _ _ _ _ hca, ha, hp]
  have h3 : webkit_context_menu_append s (some cm) webkit_context_menu_item_new_separator =
      s.store cm (Cell.context_menu (P ++ [WebKitContextMenuItem.separator])) := by
    simp [webkit_context_menu_append, hcm, webkit_context_menu_item_new_separator]
  have h4 : ∀ c, g_menu_model_get_n_items (s.store cm c) (some p) = items.length := by
    intro c
    simp [g_menu_model_get_n_items, World.menu, cell_store_ne _ _ _ _ hcp, hm]
  simp only [on_context_menu, h1, Option.isSome_some, if_true, h3, h2, h4, Int.toNat_ofNat]
  rw [context_menu_loop _ p cm items (P ++ [WebKitContextMenuItem.separator])
    (by rw [cell_store_ne _ _ _ _ hcp, hm]) (cell_store_self _ _ _ _ hcm) items.length
    (Nat.le_refl _)]
  simp [store_store]

theorem on_context_menu_absent (s : World) (web_view context_menu event hit_test_result : Option Ptr)
    (wv : Option Ptr) (h : wv_popup_menu s wv = none) :
    on_context_menu s web_view context_menu event hit_test_result wv = (false, s) := by
  simp [on_context_menu, h]

theorem filterMap_labels (items : List GMenuItem) (labels : List String)
    (h : items.map (·.label) = labels.map some) :
    (items.filterMap fun e => e.label.map context_item) = labels.map context_item := by
  induction items generalizing labels with
  | nil =>
    cases labels with
    | nil => rfl
    | cons l ls => simp at h
  | cons e es ih =>
    cases labels with
    | nil => simp at h
    | cons l ls =>
      simp only [List.map_cons, List.cons.injEq] at h
      simp [List.filterMap_cons, h.1, ih ls h.2]


/-! ## The state right after construction -/

/-- The observations of a freshly created shell. -/
theorem fresh_observations (l : List Cell) (conns : List SignalConnection) (err : List String)
    (oom : Bool) (title : String) (width height : Int) (url : String) :
    window_title ⟨l ++ created_cells l.length title width height url, conns, err, oom⟩
        (some l.length) = some title ∧
    window_default_size ⟨l ++ created_cells l.length title width height url, conns, err, oom⟩
        (some l.length) = some (accepted_size width height) ∧
    window_visible ⟨l ++ created_cells l.length title width height url, conns, err, oom⟩
        (some l.length) = some false ∧
    tracked_url ⟨l ++ created_cells l.length title width height url, conns, err, oom⟩
        (some l.length) = some url ∧
    popup_model ⟨l ++ created_cells l.length title width height url, conns, err, oom⟩
        (some l.length) = some [] ∧
    header_menu ⟨l ++ created_cells l.length title width height url, conns, err, oom⟩
        (some l.length) = some file_menu ∧
    wv_webview ⟨l ++ created_cells l.length title width height url, conns, err, oom⟩
        (some l.length) = some (l.length + 10) ∧
    window_content ⟨l ++ created_cells l.length title width height url, conns, err, oom⟩
        (some l.length) = some (l.length + 10) := by
  simp only [window_title, window_default_size, window_visible, tracked_url, popup_model,
    header_menu, window_header_bar, window_content, wv_window, wv_webview, wv_popup_menu,
    World.shell, World.widget, World.menu, World.cell, created_cells, file_menu,
    getElem?_append_length_add, getElem?_append_length, List.getElem?_cons_succ,
    List.getElem?_cons_zero, Option.bind_some, Option.some_bind, Option.map_some', List.map_cons,
    List.map_nil, and_self]

theorem create_oom (s : World) (title : String) (width height : Int) (url : String)
    (hm : s.oom = true) :
    create_webview_window s title width height url =
      (none, fprintf_stderr s "Memory allocation failed\n") := by
  rw [create_blocks]
  simp [malloc_WebViewWindow, hm]

theorem popup_model_cells (s : World) (wv : Option Ptr) (items : List GMenuItem)
    (h : popup_model s wv = some items) :
    ∃ a p sh, wv = some a ∧ s.cell a = some (Cell.shell sh) ∧ sh.popup_menu = some p ∧
      s.cell p = some (Cell.menu items) := by
  cases wv with
  | none => simp [popup_model, wv_popup_menu, World.shell, World.menu] at h
  | some a =>
    cases ha : s.cell a with
    | none => simp [popup_model, wv_popup_menu, World.shell, World.menu, ha] at h
    | some c =>
      cases c with
      | shell sh =>
        cases hp : sh.popup_menu with
        | none => simp [popup_model, wv_popup_menu, World.shell, World.menu, ha, hp] at h
        | some p =>
          refine ⟨a, p, sh, rfl, ha, hp, ?_⟩
          simp only [popup_model, wv_popup_menu, World.shell, World.menu, ha, hp,
            Option.bind_some, Option.some_bind] at h
          cases hc : s.cell p with
          | none => simp [hc] at h
          | some c =>
            cases c <;> simp [hc] at h
            rw [h]
      | widget w => simp [popup_model, wv_popup_menu, World.shell, World.menu, ha] at h
      | menu m => simp [popup_model, wv_popup_menu, World.shell, World.menu, ha] at h
      | context_menu m => simp [popup_model, wv_popup_menu, World.shell, World.menu, ha] at h

theorem context_menu_items_cell (s : World) (context_menu : Option Ptr)
    (P : List WebKitContextMenuItem) (h : context_menu_items s context_menu = some P) :
    ∃ cm, context_menu = some cm ∧ s.cell cm = some (Cell.context_menu P) := by
  cases context_menu with
  | none => simp [context_menu_items] at h
  | some cm =>
    refine ⟨cm, rfl, ?_⟩
    simp only [context_menu_items] at h
    cases hc : s.cell cm with
    | none => simp [hc] at h
    | some c =>
      cases c <;> simp [hc] at h
      rw [h]

theorem on_context_menu_model (s : World)
    (web_view context_menu event hit_test_result wv : Option Ptr)
    (P : List WebKitContextMenuItem) (items : List GMenuItem)
    (hP : context_menu_items s context_menu = some P) (hmodel : popup_model s wv = some items) :
    (on_context_menu s web_view context_menu event hit_test_result wv).1 = false ∧
    context_menu_items (on_context_menu s web_view context_menu event hit_test_result wv).2
        context_menu =
      some (P ++ WebKitContextMenuItem.separator ::
        items.filterMap fun e => e.label.map context_item) := by
  obtain ⟨a, p, sh, rfl, ha, hp, hm⟩ := popup_model_cells s wv items hmodel
  obtain ⟨cm, rfl, hcm⟩ := context_menu_items_cell s context_menu P hP
  rw [on_context_menu_eval s web_view event hit_test_result a p cm sh items P ha hp hm hcm]
  simp [context_menu_items, cell_store_self _ _ _ _ hcm]


theorem create_eq (s0 : World) (title : String) (width height : Int) (url : String)
    (wv : Option Ptr) (s1 : World) (hm : s0.oom = false)
    (hc : create_webview_window s0 title width height url = (wv, s1)) :
    wv = some s0.heap.length ∧
    s1 = ⟨s0.heap ++ created_cells s0.heap.length title width height url,
      s0.connections ++ [⟨s0.heap.length + 1, "destroy", Callback.on_window_destroy, none⟩],
      s0.stderr, s0.oom⟩ ∧
    Shape s1 wv := by
  have hs := create_shape s0 title width height url hm
  rw [hc] at hs
  rw [create_ok s0 title width height url hm] at hc
  simp only [Prod.mk.injEq] at hc
  exact ⟨hc.1.symm, hc.2.symm, hs⟩

theorem show_idempotent (s : World) (wv : Option Ptr) (h : Shape s wv) :
    webview_show (webview_show s wv) wv = webview_show s wv := by
  obtain ⟨a, w, v, p, mb, rfl, ha, ⟨vis, vex, win, hw⟩, -, -⟩ := h
  have haw : w ≠ a := by rintro rfl; rw [ha] at hw; cases hw
  have e : ∀ (t : World) (b : Bool),
      t.cell a = some (Cell.shell ⟨some w, some v, mb, some p⟩) →
      t.cell w = some (Cell.widget ⟨b, vex, WidgetKind.window win⟩) →
      webview_show t (some a) = t.store w (Cell.widget ⟨true, vex, WidgetKind.window win⟩) := by
    intro t b hta htw
    simp [webview_show, gtk_widget_set_visible, wv_window, World.shell, World.update_widget,
      hta, htw]
  rw [e s vis ha hw, e _ true (by rw [cell_store_ne _ _ _ _ haw, ha]) (cell_store_self _ _ _ _ hw),
    store_store]

/-! ## The claims -/

/-- C1: on a constructed shell, registering the labels `l1..ln` in that order
leaves the context-menu model equal to its previous entries followed by
`(l1, "context.custom"), ..., (ln, "context.custom")`, with no deduplication.
From a freshly created shell, "Copy" then "Paste" give exactly those two
entries, and a third call with "Copy" gives three. -/
theorem C1_labels_appended_in_call_order (s0 : World) (title : String) (width height : Int)
    (url : String) (wv : Option Ptr) (s1 : World) (ops : List Op) (labels : List String)
    (hm : s0.oom = false)
    (hc : create_webview_window s0 title width height url = (wv, s1)) :
    popup_model (add_context_menu_items (run wv s1 ops) wv labels) wv =
      some (popup_entries (run wv s1 ops) wv ++ labels.map custom_entry) ∧
    popup_model (add_context_menu_items s1 wv ["Copy", "Paste"]) wv =
      some [⟨some "Copy", some "context.custom", none⟩,
            ⟨some "Paste", some "context.custom", none⟩] ∧
    popup_model
        (webview_add_context_menu_item (add_context_menu_items s1 wv ["Copy", "Paste"]) wv "Copy")
        wv =
      some [⟨some "Copy", some "context.custom", none⟩,
            ⟨some "Paste", some "context.custom", none⟩,
            ⟨some "Copy", some "context.custom", none⟩] := by
  obtain ⟨hwv, hs1, hshape⟩ := create_eq s0 title width height url wv s1 hm hc
  have hfresh : popup_entries s1 wv = [] := by
    rw [hs1, hwv, popup_entries,
      (fresh_observations s0.heap _ _ _ title width height url).2.2.2.2.1]
    rfl
  refine ⟨(add_items_shape wv labels _ (run_shape wv ops s1 hshape)).2, ?_, ?_⟩
  · rw [(add_items_shape wv ["Copy", "Paste"] s1 hshape).2, hfresh]
    rfl
  · have h2 := add_items_shape wv ["Copy", "Paste"] s1 hshape
    rw [(add_effect _ wv "Copy" h2.1).2.1, popup_entries, h2.2, hfresh]
    rfl

theorem C1_witness :
    World.empty.oom = false ∧
    popup_model (add_context_menu_items (run demo.1 demo.2 [Op.show]) demo.1 ["Cut", "Cut"])
        demo.1 =
      some (popup_entries (run demo.1 demo.2 [Op.show]) demo.1 ++
        ["Cut", "Cut"].map custom_entry) :=
  ⟨rfl, (C1_labels_appended_in_call_order World.empty "Velo" 800 600 "https://example.com"
    demo.1 demo.2 [Op.show] ["Cut", "Cut"] rfl rfl).1⟩

/-- C2, evaluated on a fresh shell: the constructor has already stored a menu
model in `popup_menu`, so the first `webview_add_context_menu_item` skips its
initialisation branch; the entry is recorded but the only registration is the
window's "destroy" handler, no `on_context_menu` handler is connected, and no
later sequence of calls connects one. On the same shell with `popup_menu`
reset to `NULL` the call does connect the handler to the web view. -/
theorem C2_context_menu_handler_not_connected :
    popup_model (webview_add_context_menu_item demo.2 demo.1 "Copy") demo.1 =
      some [custom_entry "Copy"] ∧
    (webview_add_context_menu_item demo.2 demo.1 "Copy").connections =
      [⟨1, "destroy", Callback.on_window_destroy, none⟩] ∧
    (∀ c ∈ (webview_add_context_menu_item demo.2 demo.1 "Copy").connections,
      c.c_handler ≠ Callback.on_context_menu) ∧
    (∀ ops : List Op, (run demo.1 demo.2 ops).connections =
      [⟨1, "destroy", Callback.on_window_destroy, none⟩]) ∧
    (webview_add_context_menu_item
        (demo.2.update_shell demo.1 fun sh => { sh with popup_menu := none })
        demo.1 "Copy").connections =
      [⟨1, "destroy", Callback.on_window_destroy, none⟩,
       ⟨10, "context-menu", Callback.on_context_menu, some 0⟩] := by
  refine ⟨rfl, rfl, ?_, ?_, rfl⟩
  · have h : (webview_add_context_menu_item demo.2 demo.1 "Copy").connections =
        [⟨1, "destroy", Callback.on_window_destroy, none⟩] := rfl
    rw [h]
    intro c hcmem
    simp only [List.mem_singleton] at hcmem
    subst hcmem
    simp
  · intro ops
    rw [(run_effect demo.1 ops demo.2
      (create_shape World.empty "Velo" 800 600 "https://example.com" rfl)).2]
    rfl

/-- C3, evaluated on a fresh shell: right after `create_webview_window`,
before any call, the context-menu model is present and empty, so it is neither
absent nor non-empty. The lazy path of `webview_add_context_menu_item` keeps
"absent or non-empty": on the same shell with `popup_menu` reset to `NULL`
the model is absent, and the first registration makes it the one-entry model. -/
theorem C3_fresh_model_present_and_empty :
    popup_model (run demo.1 demo.2 []) demo.1 = some [] ∧
    ¬ (popup_model (run demo.1 demo.2 []) demo.1 = none ∨
       ∃ e es, popup_model (run demo.1 demo.2 []) demo.1 = some (e :: es)) ∧
    popup_model (demo.2.update_shell demo.1 fun sh => { sh with popup_menu := none })
      demo.1 = none ∧
    popup_model
        (webview_add_context_menu_item
          (demo.2.update_shell demo.1 fun sh => { sh with popup_menu := none }) demo.1 "Copy")
        demo.1 =
      some [custom_entry "Copy"] := by
  have h : popup_model (run demo.1 demo.2 []) demo.1 = some [] := rfl
  refine ⟨h, ?_, rfl, rfl⟩
  rw [h]
  simp

/-- After any call sequence on a shell built by the constructor, the model
holds the registered labels in call order, and one more call keeps the
existing entries as an initial segment. -/
theorem popup_model_after_calls (s0 : World) (title : String) (width height : Int)
    (url : String) (wv : Option Ptr) (s1 : World) (ops : List Op) (op : Op)
    (hm : s0.oom = false)
    (hc : create_webview_window s0 title width height url = (wv, s1)) :
    popup_model (run wv s1 ops) wv = some ((registered ops).map custom_entry) ∧
    ∃ added, popup_model (op.apply wv (run wv s1 ops)) wv =
      some (popup_entries (run wv s1 ops) wv ++ added) := by
  obtain ⟨hwv, hs1, hshape⟩ := create_eq s0 title width height url wv s1 hm hc
  have hfresh : popup_entries s1 wv = [] := by
    rw [hs1, hwv, popup_entries,
      (fresh_observations s0.heap _ _ _ title width height url).2.2.2.2.1]
    rfl
  have h1 : popup_model (run wv s1 ops) wv = some ((registered ops).map custom_entry) := by
    rw [(run_effect wv ops s1 hshape).1, hfresh, List.nil_append]
  have h2 := (run_effect wv [op] (run wv s1 ops) (run_shape wv ops s1 hshape)).1
  exact ⟨h1, (registered [op]).map custom_entry, h2⟩

/-- C4: when the shell's context-menu model exists and its entries carry
the labels `l1..ln`, `on_context_menu` turns a native popup with items `P`
into `P`, one separator, then one item per entry carrying that entry's label,
in stored order (`n + 1` items appended, `P` kept as it was) and returns
`FALSE`; when the model is absent it changes nothing and returns `FALSE`. -/
theorem C4_on_context_menu_appends_separator_and_items (s : World)
    (web_view context_menu event hit_test_result wv : Option Ptr)
    (P : List WebKitContextMenuItem)
    (hP : context_menu_items s context_menu = some P) :
    (∀ (items : List GMenuItem) (labels : List String),
      popup_model s wv = some items → items.map (·.label) = labels.map some →
      (on_context_menu s web_view context_menu event hit_test_result wv).1 = false ∧
      context_menu_items (on_context_menu s web_view context_menu event hit_test_result wv).2
          context_menu =
        some (P ++ WebKitContextMenuItem.separator :: labels.map context_item) ∧
      (labels.map context_item).map WebKitContextMenuItem.label = items.map (·.label) ∧
      (P ++ WebKitContextMenuItem.separator :: labels.map context_item).length =
        P.length + (items.length + 1)) ∧
    (wv_popup_menu s wv = none →
      on_context_menu s web_view context_menu event hit_test_result wv = (false, s)) := by
  refine ⟨?_, on_context_menu_absent s web_view context_menu event hit_test_result wv⟩
  intro items labels hmodel hlabels
  have h := on_context_menu_model s web_view context_menu event hit_test_result wv P items hP hmodel
  rw [filterMap_labels items labels hlabels] at h
  refine ⟨h.1, h.2, ?_, ?_⟩
  · rw [hlabels, List.map_map]
    rfl
  · have hlen : items.length = labels.length := by
      have := congrArg List.length hlabels
      simpa using this
    simp [hlen]

theorem C4_witness :
    (context_menu_items demo_popup (some 11) =
        some [WebKitContextMenuItem.stock 1, WebKitContextMenuItem.stock 2] ∧
      popup_model demo_popup demo.1 = some [custom_entry "Copy", custom_entry "Paste"] ∧
      [custom_entry "Copy", custom_entry "Paste"].map (·.label) = ["Copy", "Paste"].map some ∧
      context_menu_items (on_context_menu demo_popup demo.1 (some 11) none none demo.1).2
          (some 11) =
        some ([WebKitContextMenuItem.stock 1, WebKitContextMenuItem.stock 2] ++
          WebKitContextMenuItem.separator :: ["Copy", "Paste"].map context_item)) ∧
    (context_menu_items demo_null (some 1) = some [] ∧
      wv_popup_menu demo_null (some 0) = none ∧
      on_context_menu demo_null none (some 1) none none (some 0) = (false, demo_null)) :=
  ⟨⟨rfl, rfl, rfl,
    ((C4_on_context_menu_appends_separator_and_items demo_popup demo.1 (some 11)
      none none demo.1 [WebKitContextMenuItem.stock 1, WebKitContextMenuItem.stock 2] rfl).1
      [custom_entry "Copy", custom_entry "Paste"] ["Copy", "Paste"] rfl rfl).2.1⟩,
   ⟨rfl, rfl,
    (C4_on_context_menu_appends_separator_and_items demo_null none (some 1) none none (some 0)
      [] rfl).2 rfl⟩⟩


/-- C6: for every title, url and positive width and height, when allocation
succeeds `create_webview_window` returns a non-null shell whose window has
that title and default size `width x height`, whose content view has been
asked to load exactly `url` and is the scrolled region's child under the
window, and whose header menu is one "File" submenu holding
`("Open", "app.open")` then `("Exit", "app.exit")`. -/
theorem C6_create_builds_the_shell (s0 : World) (title : String) (width height : Int)
    (url : String) (wv : Option Ptr) (s1 : World) (hm : s0.oom = false)
    (hw : 0 < width) (hh : 0 < height)
    (hc : create_webview_window s0 title width height url = (wv, s1)) :
    wv.isSome ∧
    window_title s1 wv = some title ∧
    window_default_size s1 wv = some (width, height) ∧
    tracked_url s1 wv = some url ∧
    ((wv_webview s1 wv).isSome ∧ window_content s1 wv = wv_webview s1 wv) ∧
    header_menu s1 wv =
      some [⟨some "File", none,
        some [⟨some "Open", some "app.open", none⟩, ⟨some "Exit", some "app.exit", none⟩]⟩] := by
  obtain ⟨hwv, hs1, -⟩ := create_eq s0 title width height url wv s1 hm hc
  subst hwv hs1
  obtain ⟨a1, a2, -, a4, -, a6, a7, a8⟩ := fresh_observations s0.heap
    (s0.connections ++ [⟨s0.heap.length + 1, "destroy", Callback.on_window_destroy, none⟩])
    s0.stderr s0.oom title width height url
  have hsize : accepted_size width height = (width, height) := by
    have h1 : ¬ (width < -1 ∨ height < -1) := by omega
    simp [accepted_size, h1]
  rw [a1, a2, a4, a6, a7, a8, hsize]
  simp [file_menu]

theorem C6_witness :
    World.empty.oom = false ∧ (0 : Int) < 800 ∧ (0 : Int) < 600 ∧
    window_default_size demo.2 demo.1 = some (800, 600) :=
  ⟨rfl, by decide, by decide,
    (C6_create_builds_the_shell World.empty "Velo" 800 600 "https://example.com"
      demo.1 demo.2 rfl (by decide) (by decide) rfl).2.2.1⟩

/-- C7: `create_webview_window` returns the null handle exactly when
allocating the shell state fails; in that case it returns after writing the
error message, before creating any window, menu or content view, so the heap
and the signal registrations are unchanged; whenever allocation succeeds the
handle is non-null. -/
theorem C7_create_fails_iff_allocation_fails (s : World) (title : String) (width height : Int)
    (url : String) :
    ((create_webview_window s title width height url).1 = none ↔ s.oom = true) ∧
    (s.oom = true →
      create_webview_window s title width height url =
        (none, fprintf_stderr s "Memory allocation failed\n") ∧
      (create_webview_window s title width height url).2.heap = s.heap ∧
      (create_webview_window s title width height url).2.connections = s.connections) ∧
    (s.oom = false → (create_webview_window s title width height url).1.isSome) := by
  have hfail : s.oom = true →
      create_webview_window s title width height url =
        (none, fprintf_stderr s "Memory allocation failed\n") :=
    create_oom s title width height url
  have hok : s.oom = false →
      (create_webview_window s title width height url).1 = some s.heap.length := by
    intro hm
    rw [create_ok s title width height url hm]
  refine ⟨⟨?_, fun hm => by rw [hfail hm]⟩, fun hm => ⟨hfail hm, ?_, ?_⟩, fun hm => ?_⟩
  · intro hnone
    cases hm : s.oom with
    | true => rfl
    | false =>
      rw [hok hm] at hnone
      cases hnone
  · rw [hfail hm]
    rfl
  · rw [hfail hm]
    rfl
  · rw [hok hm]
    rfl

theorem C7_witness :
    ((⟨[], [], [], true⟩ : World).oom = true ∧
      create_webview_window ⟨[], [], [], true⟩ "Velo" 800 600 "https://example.com" =
        (none, fprintf_stderr ⟨[], [], [], true⟩ "Memory allocation failed\n")) ∧
    (World.empty.oom = false ∧
      (create_webview_window World.empty "Velo" 800 600 "https://example.com").1.isSome) :=
  ⟨⟨rfl, ((C7_create_fails_iff_allocation_fails ⟨[], [], [], true⟩ "Velo" 800 600
      "https://example.com").2.1 rfl).1⟩,
   ⟨rfl, (C7_create_fails_iff_allocation_fails World.empty "Velo" 800 600
      "https://example.com").2.2 rfl⟩⟩

/-- C8: on a constructed shell, in whatever state earlier calls left it,
after `webview_set_title(shell, X)` the window's title is exactly `X`, and the
content view's URL, the context-menu model and the visibility are
unchanged. -/
theorem C8_set_title_sets_exactly_the_title (s0 : World) (title : String) (width height : Int)
    (url : String) (wv : Option Ptr) (s1 : World) (ops : List Op) (X : String)
    (hm : s0.oom = false)
    (hc : create_webview_window s0 title width height url = (wv, s1)) :
    window_title (webview_set_title (run wv s1 ops) wv X) wv = some X ∧
    tracked_url (webview_set_title (run wv s1 ops) wv X) wv = tracked_url (run wv s1 ops) wv ∧
    popup_model (webview_set_title (run wv s1 ops) wv X) wv = popup_model (run wv s1 ops) wv ∧
    window_visible (webview_set_title (run wv s1 ops) wv X) wv =
      window_visible (run wv s1 ops) wv := by
  obtain ⟨-, -, hshape⟩ := create_eq s0 title width height url wv s1 hm hc
  have e := set_title_effect (run wv s1 ops) wv X (run_shape wv ops s1 hshape)
  exact ⟨e.2.1, e.2.2.2.2.1, e.2.2.2.2.2.1, e.2.2.2.1⟩

theorem C8_witness :
    World.empty.oom = false ∧
    window_title (webview_set_title (run demo.1 demo.2 [Op.set_title "Old", Op.show]) demo.1 "X")
      demo.1 = some "X" :=
  ⟨rfl, (C8_set_title_sets_exactly_the_title World.empty "Velo" 800 600 "https://example.com"
    demo.1 demo.2 [Op.set_title "Old", Op.show] "X" rfl rfl).1⟩

/-- C9: on a constructed shell `webview_show` makes the window visible, and
calling it twice leaves the same state as calling it once. -/
theorem C9_show_is_idempotent (s0 : World) (title : String) (width height : Int)
    (url : String) (wv : Option Ptr) (s1 : World) (ops : List Op)
    (hm : s0.oom = false)
    (hc : create_webview_window s0 title width height url = (wv, s1)) :
    window_visible (webview_show (run wv s1 ops) wv) wv = some true ∧
    webview_show (webview_show (run wv s1 ops) wv) wv = webview_show (run wv s1 ops) wv := by
  obtain ⟨-, -, hshape⟩ := create_eq s0 title width height url wv s1 hm hc
  have hs := run_shape wv ops s1 hshape
  exact ⟨(show_effect _ wv hs).2.1, show_idempotent _ wv hs⟩

theorem C9_witness :
    World.empty.oom = false ∧
    window_visible demo.2 demo.1 = some false ∧
    window_visible (webview_show demo.2 demo.1) demo.1 = some true ∧
    webview_show (webview_show demo.2 demo.1) demo.1 = webview_show demo.2 demo.1 :=
  ⟨rfl, rfl, C9_show_is_idempotent World.empty "Velo" 800 600 "https://example.com"
    demo.1 demo.2 [] rfl rfl⟩

/-- C10: whatever action identifiers the model's entries store, the native
items `on_context_menu` appends are bound to actions named by the entries'
labels: the `action` attribute is not consulted, and items built for different
labels are bound to differently named actions. -/
theorem C10_native_items_are_named_by_label (s : World)
    (web_view context_menu event hit_test_result wv : Option Ptr)
    (P : List WebKitContextMenuItem) (items : List GMenuItem) (labels : List String)
    (hP : context_menu_items s context_menu = some P)
    (hmodel : popup_model s wv = some items)
    (hlabels : items.map (·.label) = labels.map some) :
    (∃ added,
      context_menu_items (on_context_menu s web_view context_menu event hit_test_result wv).2
          context_menu = some (P ++ WebKitContextMenuItem.separator :: added) ∧
      added.map WebKitContextMenuItem.action_name = items.map (·.label) ∧
      added.map WebKitContextMenuItem.action_name = labels.map some) ∧
    (∀ l1 l2 : String, l1 ≠ l2 →
      (context_item l1).action_name ≠ (context_item l2).action_name) := by
  have h := on_context_menu_model s web_view context_menu event hit_test_result wv P items hP hmodel
  rw [filterMap_labels items labels hlabels] at h
  refine ⟨⟨labels.map context_item, h.2, ?_, ?_⟩, ?_⟩
  · rw [hlabels, List.map_map]
    rfl
  · rw [List.map_map]
    rfl
  · intro l1 l2 hne heq
    simp only [context_item, webkit_context_menu_item_new_from_gaction, g_simple_action_new,
      WebKitContextMenuItem.action_name, Option.some.injEq] at heq
    exact hne heq

theorem C10_witness :
    context_menu_items demo_popup (some 11) =
      some [WebKitContextMenuItem.stock 1, WebKitContextMenuItem.stock 2] ∧
    popup_model demo_popup demo.1 =
      some [⟨some "Copy", some "context.custom", none⟩,
            ⟨some "Paste", some "context.custom", none⟩] ∧
    [(⟨some "Copy", some "context.custom", none⟩ : GMenuItem),
      ⟨some "Paste", some "context.custom", none⟩].map (·.label) = ["Copy", "Paste"].map some ∧
    ∃ added,
      context_menu_items (on_context_menu demo_popup demo.1 (some 11) none none demo.1).2
          (some 11) =
        some ([WebKitContextMenuItem.stock 1, WebKitContextMenuItem.stock 2] ++
          WebKitContextMenuItem.separator :: added) ∧
      added.map WebKitContextMenuItem.action_name =
        [(⟨some "Copy", some "context.custom", none⟩ : GMenuItem),
          ⟨some "Paste", some "context.custom", none⟩].map (·.label) ∧
      added.map WebKitContextMenuItem.action_name = ["Copy", "Paste"].map some :=
  ⟨rfl, rfl, rfl,
    (C10_native_items_are_named_by_label demo_popup demo.1 (some 11) none none demo.1
      [WebKitContextMenuItem.stock 1, WebKitContextMenuItem.stock 2]
      [⟨some "Copy", some "context.custom", none⟩, ⟨some "Paste", some "context.custom", none⟩]
      ["Copy", "Paste"] rfl rfl rfl).1⟩

end Velo
